import Mathlib

/-!
# mpc-qt settings window: Setting Map import/export and the video-output command assembler

A shallow embedding of `settingswindow.cpp`:

* `QMap`: Qt's associative container, ordered by its `QString` keys (UTF-16 code units), the
  container behind `SettingMap`, `QVariantMap` and the `params` mapping of `sendSignals`;
* `SettingMap.toVMap`, `SettingMap.fromVMap`, `generateSettingMap`, `takeSettings`;
* the macros `WIDGET_LOOKUP`, `OFFSET_LOOKUP`, `WIDGET_TO_TEXT` and the table
  `indexedValueToText`;
* `sendSignals`, as far as the `voCommandLine` emission goes: the assignments to `params`
  in program order (`sendSignals.statements`), the map they build, the token list `cmdline`
  and the emitted string.

`QVariant` belongs to Qt, not to this program; the development is parametric in its carrier
and in the conversions the program calls (`QVariantOps`). Concrete instances use
`SampleVariant`.

The definitions come first, the statements about them follow: facts about the container,
the import/export claims (C3, C4, C5), the Option Translator and Command Assembler claims
(C1, C2, C6, C7, C8, C9) and the name-equals-key invariant (C10).
-/

namespace MpcQt

/-! ## Qt value types -/

/-- The part of Qt's `QVariant` interface used by `settingswindow.cpp`: the default-constructed
(invalid) variant and the conversions `toBool`, `toInt` and `toString`. Nothing is assumed
about how they act, so every statement holds for Qt's actual conversions. -/
structure QVariantOps (V : Type) where
  /-- The variant made by `QVariant()`. -/
  invalid : V
  /-- Method `QVariant::toBool`. -/
  toBool : V → Bool
  /-- Method `QVariant::toInt`. -/
  toInt : V → Int
  /-- Method `QVariant::toString`. -/
  toString : V → String

/-- The UTF-16 code units that encode a character: the code point itself up to U+FFFF,
a surrogate pair above. -/
def utf16Units (c : Char) : List Nat :=
  if c.toNat < 0x10000 then [c.toNat]
  else [0xD800 + (c.toNat - 0x10000) / 0x400, 0xDC00 + (c.toNat - 0x10000) % 0x400]

/-- The UTF-16 code units a `QString` holds for a text. -/
def QString.utf16 (s : String) : List Nat := s.toList.flatMap utf16Units

/-- Order of `QString` keys inside a `QMap` (`operator<` of `QString`): lexicographic on the
UTF-16 code units. -/
def keyLt (a b : String) : Prop := QString.utf16 a < QString.utf16 b

instance keyLt.decidable (a b : String) : Decidable (keyLt a b) :=
  inferInstanceAs (Decidable (QString.utf16 a < QString.utf16 b))

/-- Insertion into the key-ordered entry list of a `QMap`. As in Qt only the order of the
keys is consulted: the entry goes before the first greater key; an entry whose key is
neither less nor greater keeps its key and takes the new value. -/
def insertEntries {V : Type} (k : String) (v : V) : List (String × V) → List (String × V)
  | [] => [(k, v)]
  | e :: t =>
    if keyLt k e.1 then (k, v) :: e :: t
    else if keyLt e.1 k then e :: insertEntries k v t
    else (e.1, v) :: t

/-- Qt's `QMap<QString, V>`: entries with unique keys, held and iterated in ascending key
order. -/
structure QMap (V : Type) where
  /-- The entries in iteration order. -/
  entries : List (String × V)
  /-- Keys are strictly ascending. -/
  ordered : entries.Pairwise (fun a b => keyLt a.1 b.1)

namespace QMap

variable {V : Type}

/-- The default-constructed, empty map. -/
def empty : QMap V := ⟨[], List.Pairwise.nil⟩

/-- Method `QMap::keys`, in ascending order. -/
def keys (m : QMap V) : List String := m.entries.map Prod.fst

/-- Method `QMap::values`, in ascending key order (the order of `foreach` over a map). -/
def values (m : QMap V) : List V := m.entries.map Prod.snd

/-- The entry stored under a key, if any. (Qt locates the key through the order alone; a
key is neither less nor greater than another exactly when both are the same text, see
`eq_of_not_keyLt`.) -/
def find (m : QMap V) (k : String) : Option V := m.entries.lookup k

/-- Method `QMap::contains`. -/
def contains (m : QMap V) (k : String) : Bool := (m.find k).isSome

/-- Method `QMap::value(key)`: the stored value, or a default-constructed one (`dflt`) when
the key is absent. The non-const `operator[]` returns the same value: it first stores the
default-constructed value under a missing key, which changes no value read afterwards. -/
def value (m : QMap V) (k : String) (dflt : V) : V := (m.find k).getD dflt

/-- Method `QMap::insert`: replaces the value of an existing key, or adds the entry. -/
def insert (m : QMap V) (k : String) (v : V) : QMap V :=
  ⟨insertEntries k v m.entries, by
    have key : ∀ l : List (String × V), l.Pairwise (fun a b => keyLt a.1 b.1) →
        (insertEntries k v l).Pairwise (fun a b => keyLt a.1 b.1) ∧
        ∀ x ∈ insertEntries k v l, x.1 = k ∨ ∃ y ∈ l, x.1 = y.1 := by
      intro l
      induction l with
      | nil => intro _; simp [insertEntries]
      | cons e t ih =>
        intro h
        obtain ⟨h1, h2⟩ := List.pairwise_cons.mp h
        obtain ⟨ih1, ih2⟩ := ih h2
        unfold insertEntries
        by_cases c1 : keyLt k e.1
        · rw [if_pos c1]
          refine ⟨List.pairwise_cons.mpr ⟨?_, h⟩, ?_⟩
          · intro x hx
            rcases List.mem_cons.mp hx with rfl | hx
            · exact c1
            · exact lt_trans c1 (h1 x hx)
          · intro x hx
            rcases List.mem_cons.mp hx with rfl | hx
            · exact Or.inl rfl
            · exact Or.inr ⟨x, hx, rfl⟩
        · rw [if_neg c1]
          by_cases c2 : keyLt e.1 k
          · rw [if_pos c2]
            refine ⟨List.pairwise_cons.mpr ⟨?_, ih1⟩, ?_⟩
            · intro x hx
              rcases ih2 x hx with hk | ⟨y, hy, hk⟩
              · rw [hk]; exact c2
              · rw [hk]; exact h1 y hy
            · intro x hx
              rcases List.mem_cons.mp hx with rfl | hx
              · exact Or.inr ⟨x, List.mem_cons_self _ _, rfl⟩
              · rcases ih2 x hx with hk | ⟨y, hy, hk⟩
                · exact Or.inl hk
                · exact Or.inr ⟨y, List.mem_cons_of_mem _ hy, hk⟩
          · rw [if_neg c2]
            refine ⟨List.pairwise_cons.mpr ⟨h1, h2⟩, ?_⟩
            intro x hx
            rcases List.mem_cons.mp hx with rfl | hx
            · exact Or.inr ⟨e, List.mem_cons_self _ _, rfl⟩
            · exact Or.inr ⟨x, List.mem_cons_of_mem _ hx, rfl⟩
    exact (key m.entries m.ordered).1⟩

end QMap

/-! ## Settings -/

/-- Class `Setting` of `settingswindow.h`: the name of a control, a non-owning reference to
it (`none` is the NULL pointer) and its value. -/
structure Setting (V : Type) where
  /-- The control's object name. -/
  name : String
  /-- The control, by address. -/
  widget : Option Nat
  /-- The mirrored value. -/
  value : V

/-- The default constructor `Setting() : name(), widget(NULL), value() {}`. -/
def Setting.default {V : Type} (ops : QVariantOps V) : Setting V := ⟨"", none, ops.invalid⟩

/-- Modelled from the spec: the declaration of `SettingMap` is missing from the header at
hand (it declares an older `Settings` struct); the specification describes the Setting Map
as an "ordered-by-name collection of (name, control reference, value) records" with unique
keys, and `settingswindow.cpp` calls `contains`, `value`, `insert`, `operator[]` and iterates
it, so it is a `QMap<QString, Setting>`. -/
abbrev SettingMap (V : Type) := QMap (Setting V)

/-- Qt's `QVariantMap`, that is `QMap<QString, QVariant>`. -/
abbrev QVariantMap (V : Type) := QMap V

/-- Function `SettingMap::toVMap`: every Setting of the map, in iteration order, is
inserted into a fresh variant map under its name. -/
def SettingMap.toVMap {V : Type} (self : SettingMap V) : QVariantMap V :=
  self.values.foldl (fun m s => m.insert s.name s.value) QMap.empty

/-- One round of the loop of `SettingMap::fromVMap` for the payload entry `(key, value)`. -/
def SettingMap.fromVMapStep {V : Type} (ops : QVariantOps V) (self : SettingMap V)
    (i : String × V) : SettingMap V :=
  if !self.contains i.1 then self
  else
    let s := self.value i.1 (Setting.default ops)
    self.insert s.name ⟨s.name, s.widget, i.2⟩

/-- Function `SettingMap::fromVMap`: the payload is walked in key order; a key the map does
not contain is skipped, otherwise the Setting stored under it is re-inserted under its own
name with the payload's value. -/
def SettingMap.fromVMap {V : Type} (ops : QVariantOps V) (self : SettingMap V)
    (m : QVariantMap V) : SettingMap V :=
  m.entries.foldl (SettingMap.fromVMapStep ops) self

/-! ## The control tree and `generateSettingMap` -/

/-- A `QObject` of the dialog's object tree, as far as `generateSettingMap` inspects it:
`metaObject()->className()`, `objectName()`, its address, `inherits(...)`, `property(...)`
and `children()`. -/
inductive QObject (V : Type) where
  | mk (className : String) (objectName : String) (address : Nat)
      (inherits : String → Bool) (property : String → V) (children : List (QObject V))

namespace QObject

variable {V : Type}

/-- Result of `metaObject()->className()`. -/
def className : QObject V → String
  | mk c _ _ _ _ _ => c

/-- Result of `objectName()`. -/
def objectName : QObject V → String
  | mk _ n _ _ _ _ => n

/-- The object's address. -/
def address : QObject V → Nat
  | mk _ _ a _ _ _ => a

/-- Method `QObject::inherits`. -/
def inherits : QObject V → String → Bool
  | mk _ _ _ i _ _ => i

/-- Method `QObject::property`. -/
def property : QObject V → String → V
  | mk _ _ _ _ p _ => p

/-- Method `QObject::children`. -/
def children : QObject V → List (QObject V)
  | mk _ _ _ _ _ cs => cs

mutual
/-- Number of objects in the tree below and including this one. -/
def size : QObject V → Nat
  | mk _ _ _ _ _ cs => 1 + sizeList cs
/-- Number of objects in a list of trees. -/
def sizeList : List (QObject V) → Nat
  | [] => 0
  | c :: cs => size c + sizeList cs
end

mutual
/-- All objects of the tree: the object itself and its descendants. -/
def subobjects : QObject V → List (QObject V)
  | mk c n a i p cs => mk c n a i p cs :: subobjectsList cs
/-- All objects of a list of trees. -/
def subobjectsList : List (QObject V) → List (QObject V)
  | [] => []
  | c :: cs => subobjects c ++ subobjectsList cs
end

end QObject

/-- The table `Setting::classToProperty`. -/
def classToProperty : List (String × String) :=
  [ ("QCheckBox", "checked"),
    ("QRadioButton", "checked"),
    ("QLineEdit", "text"),
    ("QSpinBox", "value"),
    ("QDoubleSpinBox", "value"),
    ("QComboBox", "currentIndex"),
    ("QListWidget", "currentRow"),
    ("QFontComboBox", "currentText"),
    ("QScrollBar", "value") ]

/-- Lookup `classToProperty.value(className, QString())`; `classToProperty[className]`
reads the same value. -/
def classToProperty.value (className : String) : String :=
  (classToProperty.lookup className).getD ""

/-- The class names inspected by `generateSettingMap`. -/
def settingClasses : List String :=
  ["QCheckBox", "QRadioButton", "QLineEdit", "QSpinBox",
   "QDoubleSpinBox", "QComboBox", "QListWidget", "QFontComboBox",
   "QScrollBar"]

/-- The `while (!toParse.empty())` loop of `generateSettingMap`. Every round takes the
first object off the queue, so `fuel` bounds the number of rounds; `none` means the fuel
ran out before the queue was empty. -/
def generateSettingMap.loop {V : Type} :
    Nat → List (QObject V) → SettingMap V → Option (SettingMap V)
  | _, [], settingMap => some settingMap
  | 0, _ :: _, _ => none
  | fuel + 1, item :: toParse, settingMap =>
    if settingClasses.contains item.className
        && !(item.objectName == "")
        && item.objectName != "qt_spinbox_lineedit" then
      let name := item.objectName
      let className := item.className
      let property := classToProperty.value className
      let value := item.property property
      let widget := if item.inherits "QWidget" then some item.address else none
      generateSettingMap.loop fuel toParse (settingMap.insert name ⟨name, widget, value⟩)
    else
      generateSettingMap.loop fuel
        (toParse ++ item.children.filter
          (fun child => child.inherits "QWidget" || child.inherits "QLayout"))
        settingMap

/-- Function `SettingsWindow::generateSettingMap`, run on the dialog `this`. The loop is
given as many rounds as the tree has objects. -/
def generateSettingMap {V : Type} (this : QObject V) : Option (SettingMap V) :=
  generateSettingMap.loop this.size [this] QMap.empty

/-- Function `Setting::sendToControl`: the property write it performs, as
(address of the control, property name, value); `classOf` gives the class name of the
control at an address. A Setting without control (NULL) has no defined write. -/
def Setting.sendToControl {V : Type} (classOf : Nat → String) (s : Setting V) :
    Option (Nat × String × V) :=
  s.widget.map (fun w => (w, classToProperty.value (classOf w), s.value))

/-- Function `SettingsWindow::takeSettings`: the new `acceptedSettings` together with the
property writes sent to the controls, in iteration order. -/
def takeSettings {V : Type} (ops : QVariantOps V) (classOf : Nat → String)
    (acceptedSettings : SettingMap V) (payload : QVariantMap V) :
    SettingMap V × List (Option (Nat × String × V)) :=
  let accepted := SettingMap.fromVMap ops acceptedSettings payload
  (accepted, accepted.values.map (Setting.sendToControl classOf))

/-! ## The Option Translator: `indexedValueToText` and the lookup macros -/

/-- The macro `SCALAR_SCALARS`. -/
def SCALAR_SCALARS : List String :=
  ["bilinear", "bicubic_fast", "oversample", "spline16", "spline36",
   "spline64", "sinc", "lanczos", "gingseng", "jinc", "ewa_lanczos",
   "ewa_hanning", "ewa_gingseng", "ewa_lanczossharp", "ewa_lanczossoft",
   "hassnsoft", "bicubic", "bcspline", "catmull_rom", "mitchell",
   "robidoux", "robidouxsharp", "ewa_robidoux", "ewa_robidouxsharp",
   "box", "nearest", "triangle", "gaussian"]

/-- The macro `SCALAR_WINDOWS`. -/
def SCALAR_WINDOWS : List String :=
  ["box", "triable", "bartlett", "hanning", "hamming", "quadric", "welch",
   "kaiser", "blackman", "gaussian", "sinc", "jinc", "sphinx"]

/-- The macro `TIME_SCALARS`. -/
def TIME_SCALARS : List String :=
  ["oversample", "spline16", "spline36", "spline64", "sinc", "lanczos",
   "gingseng", "catmull_rom", "mitchell", "robidoux", "robidouxsharp",
   "box", "nearest", "triangle", "gaussian"]

/-- The initialiser of the static table `SettingMap::indexedValueToText`. -/
def indexedValueToText : List (String × List String) :=
  [ ("videoFramebuffer", ["rgb8-rgba", "rgb10-rgb10_a2", "rgba12-rgba12", "rgb16-rgba16",
      "rgb16f-rgba16f", "rgb32f-rgba32f"]),
    ("videoAlphaMode", ["blend", "yes", "no"]),
    ("ditherType", ["fruit", "ordered", "no"]),
    ("scaleScalar", SCALAR_SCALARS),
    ("scaleWindow", SCALAR_WINDOWS),
    ("dscaleScalar", SCALAR_SCALARS),
    ("dscaleWindow", SCALAR_WINDOWS),
    ("cscaleScalar", SCALAR_SCALARS),
    ("cscaleWindow", SCALAR_WINDOWS),
    ("tscaleScalar", TIME_SCALARS),
    ("tscaleWindow", SCALAR_WINDOWS),
    ("prescalarMethod", ["none", "superxbr", "needi3"]),
    ("nnedi3Neurons", ["16", "32", "64", "128"]),
    ("nnedi3Window", ["8x4", "8x6"]),
    ("nnedi3Upload", ["ubo", "shader"]),
    ("ccTargetPrim", ["auto", "bt.601-525", "bt.601-625", "bt.709", "bt.2020", "bt.470m",
      "apple", "adobe", "prophoto", "cie1931"]),
    ("ccTargetTRC", ["auto", "by.1886", "srgb", "linear", "gamma1.8", "gamma2.2", "gamma2.8",
      "prophoto"]),
    ("audioRenderer", ["pulse", "alsa", "oss", "null"]),
    ("framedroppingMode", ["no", "vo", "decoder", "decoder+vo"]),
    ("framedroppingDecoderMode", ["none", "default", "nonref", "bidir", "nonkey", "all"]),
    ("syncMode", ["audio", "display-resample", "display-resample-vdrop",
      "display-resample-desync", "display-adrop", "display-vdrop"]),
    ("subtitlePlacementX", ["left", "center", "right"]),
    ("subtitlePlacementY", ["top", "center", "bottom"]),
    ("subtitlesAssOverride", ["no", "yes", "force", "signfs"]),
    ("subtitleAlignment", ["top-center", "top-right", "center-right", "bottom-right",
      "bottom-center", "bottom-left", "center-left", "top-left", "center-center"]) ]

/-- The read `SettingMap::indexedValueToText[name]`: the registered label list, or the
default-constructed (empty) list for a name without entry. -/
def indexedValueToText.index (name : String) : List String :=
  (indexedValueToText.lookup name).getD []

/-- Method `QList::value(i, defaultValue)`: the element at index `i`, or `defaultValue` when
`i` is out of bounds. The one-argument form passes the default-constructed string `""`. -/
def QStringList.value (l : List String) (i : Int) (defaultValue : String) : String :=
  if i < 0 ∨ i ≥ (l.length : Int) then defaultValue else l.getD i.toNat defaultValue

/-- Splitting of a character list at every occurrence of `sep`, empty parts kept. -/
def splitChars (sep : Char) : List Char → List (List Char)
  | [] => [[]]
  | c :: cs =>
    if c = sep then [] :: splitChars sep cs
    else
      match splitChars sep cs with
      | [] => [[c]]
      | w :: ws => (c :: w) :: ws

/-- Method `QString::split(sep)` with its default behaviour (empty parts are kept). -/
def QString.split (s : String) (sep : Char) : List String :=
  (splitChars sep s.toList).map String.mk

/-- Modelled from the spec: the generated class `Ui::SettingsWindow` (from the dialog's
form file) is not among the sources at hand. `ui "X"` stands for `ui->X->objectName()`;
the form compiler gives every control the object name of its member, and the specification
names controls by that name. -/
abbrev ui (member : String) : String := member

/-- The macro `WIDGET_LOOKUP(widget)`, that is `acceptedSettings[widget->objectName()].value`;
the control is given by its object name. For a name the map lacks, `operator[]` yields a
default-constructed `Setting` (and stores it, which changes no value read by `sendSignals`
afterwards). -/
def WIDGET_LOOKUP {V : Type} (ops : QVariantOps V) (acceptedSettings : SettingMap V)
    (widget : String) : V :=
  (acceptedSettings.value widget (Setting.default ops)).value

/-- The macro `OFFSET_LOOKUP(source, widget)`, that is
`source[widget->objectName()].value.toInt()`. -/
def OFFSET_LOOKUP {V : Type} (ops : QVariantOps V) (source : SettingMap V)
    (widget : String) : Int :=
  ops.toInt (source.value widget (Setting.default ops)).value

/-- The macro `WIDGET_TO_TEXT(widget)`. -/
def WIDGET_TO_TEXT {V : Type} (ops : QVariantOps V) (acceptedSettings defaultSettings :
    SettingMap V) (widget : String) : String :=
  QStringList.value (indexedValueToText.index widget) (OFFSET_LOOKUP ops acceptedSettings widget)
    (QStringList.value (indexedValueToText.index widget)
      (OFFSET_LOOKUP ops defaultSettings widget) "")

/-! ## The Command Assembler: `sendSignals` -/

/-- The assignments `params[key] = value` of `sendSignals` in program order, each group with
the condition it is executed under (`true` for an unconditional assignment). `QString()` is
the empty string. -/
def sendSignals.statements {V : Type} (ops : QVariantOps V)
    (acceptedSettings defaultSettings : SettingMap V) : List (Bool × List (String × String)) :=
  [ (true, [("fbo-format",
      QStringList.value
        (QString.split (WIDGET_TO_TEXT ops acceptedSettings defaultSettings
          (ui "videoFramebuffer")) '-')
        (if ops.toBool (WIDGET_LOOKUP ops acceptedSettings (ui "videoUseAlpha")) then 1 else 0)
        "")]),
    (true, [("alpha", WIDGET_TO_TEXT ops acceptedSettings defaultSettings (ui "videoUseAlpha"))]),
    (true, [("sharpen", ops.toString (WIDGET_LOOKUP ops acceptedSettings (ui "videoSharpen")))]),
    (ops.toBool (WIDGET_LOOKUP ops acceptedSettings (ui "ditherDithering")),
      [("dither-depth", WIDGET_TO_TEXT ops acceptedSettings defaultSettings (ui "ditherDepth")),
       ("dither", WIDGET_TO_TEXT ops acceptedSettings defaultSettings (ui "ditherType")),
       ("dither-size-fruit",
         ops.toString (WIDGET_LOOKUP ops acceptedSettings (ui "ditherFruitSize")))]),
    (ops.toBool (WIDGET_LOOKUP ops acceptedSettings (ui "ditherTemporal")),
      [("temporal-dither", ""),
       ("temporal-dither-period",
         ops.toString (WIDGET_LOOKUP ops acceptedSettings (ui "ditherTemporalPeriod")))]),
    (ops.toBool (WIDGET_LOOKUP ops acceptedSettings (ui "scalingCorrectDownscaling")),
      [("correct-downscaling", "")]),
    (ops.toBool (WIDGET_LOOKUP ops acceptedSettings (ui "scalingInLinearLight")),
      [("linear-scaling", "")]),
    (ops.toBool (WIDGET_LOOKUP ops acceptedSettings (ui "scalingTemporalInterpolation")),
      [("interpolation", "")]),
    (ops.toBool (WIDGET_LOOKUP ops acceptedSettings (ui "scalingBlendSubtitles")),
      [("blend-subtitles", "")]),
    (ops.toBool (WIDGET_LOOKUP ops acceptedSettings (ui "scalingSigmoidizedUpscaling")),
      [("sigmoid-upscaling", ""),
       ("sigmoid-center",
         ops.toString (WIDGET_LOOKUP ops acceptedSettings (ui "sigmoidizedCenter"))),
       ("sigmoid-slope",
         ops.toString (WIDGET_LOOKUP ops acceptedSettings (ui "sigmoidizedSlope")))]),
    (true, [("scale", WIDGET_TO_TEXT ops acceptedSettings defaultSettings (ui "scaleScalar"))]),
    (ops.toBool (WIDGET_LOOKUP ops acceptedSettings (ui "scaleParam1Set")),
      [("scale-param1", ops.toString (WIDGET_LOOKUP ops acceptedSettings (ui "scaleParam1Value")))]),
    (ops.toBool (WIDGET_LOOKUP ops acceptedSettings (ui "scaleParam2Set")),
      [("scale-param2", ops.toString (WIDGET_LOOKUP ops acceptedSettings (ui "scaleParam2Value")))]),
    (ops.toBool (WIDGET_LOOKUP ops acceptedSettings (ui "scaleRadiusSet")),
      [("scale-radius", ops.toString (WIDGET_LOOKUP ops acceptedSettings (ui "scaleRadiusValue")))]),
    (ops.toBool (WIDGET_LOOKUP ops acceptedSettings (ui "scaleAntiRingSet")),
      [("scale-antiring", ops.toString (WIDGET_LOOKUP ops acceptedSettings (ui "scaleAntiRingValue")))]),
    (ops.toBool (WIDGET_LOOKUP ops acceptedSettings (ui "scaleBlurSet")),
      [("scale-blur", ops.toString (WIDGET_LOOKUP ops acceptedSettings (ui "scaleBlurValue")))]),
    (ops.toBool (WIDGET_LOOKUP ops acceptedSettings (ui "scaleWindowParamSet")),
      [("scale-wparam", ops.toString (WIDGET_LOOKUP ops acceptedSettings (ui "scaleWindowParamValue")))]),
    (ops.toBool (WIDGET_LOOKUP ops acceptedSettings (ui "scaleWindowSet")),
      [("scale-window", WIDGET_TO_TEXT ops acceptedSettings defaultSettings (ui "scaleWindowValue"))]),
    (ops.toBool (WIDGET_LOOKUP ops acceptedSettings (ui "scaleClamp")), [("scale-clamp", "")]),
    (ops.toInt (WIDGET_LOOKUP ops acceptedSettings (ui "dscaleScalar")) != 0,
      [("dscale", WIDGET_TO_TEXT ops acceptedSettings defaultSettings (ui "dscaleScalar"))]),
    (ops.toBool (WIDGET_LOOKUP ops acceptedSettings (ui "dscaleParam1Set")),
      [("dscale-param1", ops.toString (WIDGET_LOOKUP ops acceptedSettings (ui "scaleParam1Value")))]),
    (ops.toBool (WIDGET_LOOKUP ops acceptedSettings (ui "dscaleParam2Set")),
      [("dscale-param2", ops.toString (WIDGET_LOOKUP ops acceptedSettings (ui "scaleParam2Value")))]),
    (ops.toBool (WIDGET_LOOKUP ops acceptedSettings (ui "dscaleRadiusSet")),
      [("dscale-radius", ops.toString (WIDGET_LOOKUP ops acceptedSettings (ui "scaleRadiusValue")))]),
    (ops.toBool (WIDGET_LOOKUP ops acceptedSettings (ui "dscaleAntiRingSet")),
      [("dscale-antiring", ops.toString (WIDGET_LOOKUP ops acceptedSettings (ui "scaleAntiRingValue")))]),
    (ops.toBool (WIDGET_LOOKUP ops acceptedSettings (ui "dscaleBlurSet")),
      [("dscale-blur", ops.toString (WIDGET_LOOKUP ops acceptedSettings (ui "scaleBlurValue")))]),
    (ops.toBool (WIDGET_LOOKUP ops acceptedSettings (ui "dscaleWindowParamSet")),
      [("dscale-wparam", ops.toString (WIDGET_LOOKUP ops acceptedSettings (ui "scaleWindowParamValue")))]),
    (ops.toBool (WIDGET_LOOKUP ops acceptedSettings (ui "dscaleWindowSet")),
      [("dscale-window", WIDGET_TO_TEXT ops acceptedSettings defaultSettings (ui "scaleWindowValue"))]),
    (ops.toBool (WIDGET_LOOKUP ops acceptedSettings (ui "dscaleClamp")), [("dscale-clamp", "")]),
    (true, [("cscale", WIDGET_TO_TEXT ops acceptedSettings defaultSettings (ui "cscaleScalar"))]),
    (ops.toBool (WIDGET_LOOKUP ops acceptedSettings (ui "cscaleParam1Set")),
      [("ccale-param1", ops.toString (WIDGET_LOOKUP ops acceptedSettings (ui "cscaleParam1Value")))]),
    (ops.toBool (WIDGET_LOOKUP ops acceptedSettings (ui "cscaleParam2Set")),
      [("cscale-param2", ops.toString (WIDGET_LOOKUP ops acceptedSettings (ui "cscaleParam2Value")))]),
    (ops.toBool (WIDGET_LOOKUP ops acceptedSettings (ui "cscaleRadiusSet")),
      [("cscale-radius", ops.toString (WIDGET_LOOKUP ops acceptedSettings (ui "cscaleRadiusValue")))]),
    (ops.toBool (WIDGET_LOOKUP ops acceptedSettings (ui "cscaleAntiRingSet")),
      [("cscale-antiring", ops.toString (WIDGET_LOOKUP ops acceptedSettings (ui "cscaleAntiRingValue")))]),
    (ops.toBool (WIDGET_LOOKUP ops acceptedSettings (ui "cscaleBlurSet")),
      [("cscale-blur", ops.toString (WIDGET_LOOKUP ops acceptedSettings (ui "cscaleBlurValue")))]),
    (ops.toBool (WIDGET_LOOKUP ops acceptedSettings (ui "cscaleWindowParamSet")),
      [("cscale-wparam", ops.toString (WIDGET_LOOKUP ops acceptedSettings (ui "cscaleWindowParamValue")))]),
    (ops.toBool (WIDGET_LOOKUP ops acceptedSettings (ui "cscaleWindowSet")),
      [("cscale-window", WIDGET_TO_TEXT ops acceptedSettings defaultSettings (ui "cscaleWindowValue"))]),
    (ops.toBool (WIDGET_LOOKUP ops acceptedSettings (ui "cscaleClamp")), [("cscale-clamp", "")]),
    (true, [("tscale", WIDGET_TO_TEXT ops acceptedSettings defaultSettings (ui "tscaleScalar"))]),
    (ops.toBool (WIDGET_LOOKUP ops acceptedSettings (ui "tscaleParam1Set")),
      [("tscale-param1", ops.toString (WIDGET_LOOKUP ops acceptedSettings (ui "tscaleParam1Value")))]),
    (ops.toBool (WIDGET_LOOKUP ops acceptedSettings (ui "tscaleParam2Set")),
      [("tscale-param2", ops.toString (WIDGET_LOOKUP ops acceptedSettings (ui "tscaleParam2Value")))]),
    (ops.toBool (WIDGET_LOOKUP ops acceptedSettings (ui "tscaleRadiusSet")),
      [("tscale-radius", ops.toString (WIDGET_LOOKUP ops acceptedSettings (ui "tscaleRadiusValue")))]),
    (ops.toBool (WIDGET_LOOKUP ops acceptedSettings (ui "tscaleAntiRingSet")),
      [("tscale-antiring", ops.toString (WIDGET_LOOKUP ops acceptedSettings (ui "tscaleAntiRingValue")))]),
    (ops.toBool (WIDGET_LOOKUP ops acceptedSettings (ui "tscaleBlurSet")),
      [("tscale-blur", ops.toString (WIDGET_LOOKUP ops acceptedSettings (ui "tscaleBlurValue")))]),
    (ops.toBool (WIDGET_LOOKUP ops acceptedSettings (ui "tscaleWindowParamSet")),
      [("tscale-wparam", ops.toString (WIDGET_LOOKUP ops acceptedSettings (ui "tscaleWindowParamValue")))]),
    (ops.toBool (WIDGET_LOOKUP ops acceptedSettings (ui "tscaleWindowSet")),
      [("tscale-window", WIDGET_TO_TEXT ops acceptedSettings defaultSettings (ui "tscaleWindowValue"))]),
    (ops.toBool (WIDGET_LOOKUP ops acceptedSettings (ui "tscaleClamp")), [("tscale-clamp", "")]),
    (ops.toBool (WIDGET_LOOKUP ops acceptedSettings (ui "debandEnabled")),
      [("deband", ""),
       ("deband-iterations",
         ops.toString (WIDGET_LOOKUP ops acceptedSettings (ui "debandIterations"))),
       ("deband-threshold",
         ops.toString (WIDGET_LOOKUP ops acceptedSettings (ui "debandThreshold"))),
       ("deband-range", ops.toString (WIDGET_LOOKUP ops acceptedSettings (ui "debandRange"))),
       ("deband-grain", ops.toString (WIDGET_LOOKUP ops acceptedSettings (ui "debandGrain")))]) ]

/-- The assignments to `params` that `sendSignals` executes, in execution order. -/
def sendSignals.writes {V : Type} (ops : QVariantOps V)
    (acceptedSettings defaultSettings : SettingMap V) : List (String × String) :=
  (sendSignals.statements ops acceptedSettings defaultSettings).flatMap
    (fun s => if s.1 then s.2 else [])

/-- The local `QMap<QString,QString> params` of `sendSignals` when the iteration starts. -/
def sendSignals.params {V : Type} (ops : QVariantOps V)
    (acceptedSettings defaultSettings : SettingMap V) : QMap String :=
  (sendSignals.writes ops acceptedSettings defaultSettings).foldl
    (fun params w => params.insert w.1 w.2) QMap.empty

/-- The text appended to `cmdline` for one entry of `params`: `key=value`
(`QString("%1=%2").arg(key, value)`) when the value is not empty, else the bare key. -/
def renderToken (entry : String × String) : String :=
  if entry.2 = "" then entry.1 else entry.1 ++ "=" ++ entry.2

/-- The local `QStringList cmdline` of `sendSignals` after the iteration over `params`. -/
def sendSignals.cmdline {V : Type} (ops : QVariantOps V)
    (acceptedSettings defaultSettings : SettingMap V) : List String :=
  (sendSignals.params ops acceptedSettings defaultSettings).entries.map renderToken

/-- The string `sendSignals` emits through the signal `voCommandLine`. (The emissions that
follow it in `sendSignals` do not depend on it and are left out.) -/
def sendSignals.voCommandLine {V : Type} (ops : QVariantOps V)
    (acceptedSettings defaultSettings : SettingMap V) : String :=
  if ops.toBool (WIDGET_LOOKUP ops acceptedSettings (ui "videoDumbMode")) then "dumb-mode"
  else ":".intercalate (sendSignals.cmdline ops acceptedSettings defaultSettings)

/-! ## Notions used in the statements -/

/-- Every entry of the Setting Map is stored under its own name. -/
def NameIsKey {V : Type} (m : SettingMap V) : Prop :=
  ∀ e ∈ m.entries, e.2.name = e.1

/-- The tokens of the command `sendSignals` emits, in the order of emission: the single
token `dumb-mode` in dumb mode, otherwise the elements of `cmdline`. The emitted string is
their colon-join (`voCommandLine_eq_join`). -/
def sendSignals.emittedTokens {V : Type} (ops : QVariantOps V)
    (acceptedSettings defaultSettings : SettingMap V) : List String :=
  if ops.toBool (WIDGET_LOOKUP ops acceptedSettings (ui "videoDumbMode")) then ["dumb-mode"]
  else sendSignals.cmdline ops acceptedSettings defaultSettings

/-- A token has the key `key` when it is the bare key or begins with the key followed by
the equals sign. -/
def tokenHasKey (token key : String) : Bool :=
  token == key || (key ++ "=").toList.isPrefixOf token.toList

/-- Every key `sendSignals` can assign in `params`, in program order. -/
def paramKeys : List String :=
  ["fbo-format", "alpha", "sharpen", "dither-depth", "dither", "dither-size-fruit",
   "temporal-dither", "temporal-dither-period", "correct-downscaling", "linear-scaling",
   "interpolation", "blend-subtitles", "sigmoid-upscaling", "sigmoid-center", "sigmoid-slope",
   "scale", "scale-param1", "scale-param2", "scale-radius", "scale-antiring", "scale-blur",
   "scale-wparam", "scale-window", "scale-clamp",
   "dscale", "dscale-param1", "dscale-param2", "dscale-radius", "dscale-antiring",
   "dscale-blur", "dscale-wparam", "dscale-window", "dscale-clamp",
   "cscale", "ccale-param1", "cscale-param2", "cscale-radius", "cscale-antiring",
   "cscale-blur", "cscale-wparam", "cscale-window", "cscale-clamp",
   "tscale", "tscale-param1", "tscale-param2", "tscale-radius", "tscale-antiring",
   "tscale-blur", "tscale-wparam", "tscale-window", "tscale-clamp",
   "deband", "deband-iterations", "deband-threshold", "deband-range", "deband-grain"]

/-- The key prefixes of the four scaling stages. -/
def scalingStages : List String := ["scale", "dscale", "cscale", "tscale"]

/-- The gated sub-fields of a scaling stage: the key suffix of the token, and the suffix
of the name of the paired "Set" checkbox. -/
def gatedFields : List (String × String) :=
  [("param1", "Param1Set"), ("param2", "Param2Set"), ("radius", "RadiusSet"),
   ("antiring", "AntiRingSet"), ("blur", "BlurSet"), ("wparam", "WindowParamSet"),
   ("window", "WindowSet")]

/-- The keys of the five deband tokens. -/
def debandKeys : List String :=
  ["deband", "deband-iterations", "deband-threshold", "deband-range", "deband-grain"]

/-- The token list the specification words describe for `params`: one token per key, with
the value last assigned to it, in the order in which the keys were first inserted. -/
def insertionOrderTokens (writes : List (String × String)) : List (String × String) :=
  writes.foldl
    (fun toks w =>
      if toks.any (fun t => t.1 == w.1) then toks.map (fun t => if t.1 = w.1 then w else t)
      else toks ++ [w])
    []

/-! ## Sample values -/

/-- A small carrier for concrete instances: the invalid, boolean and integer alternatives
of `QVariant`. -/
inductive SampleVariant where
  | invalid
  | bool (b : Bool)
  | int (i : Int)
  deriving DecidableEq

/-- Qt's conversions between the alternatives of `SampleVariant`: an invalid variant converts
to `false`, `0` and the empty string; a boolean to `0`/`1` and `"false"`/`"true"`; an integer
is true when non-zero and prints in decimal. -/
def sampleOps : QVariantOps SampleVariant where
  invalid := SampleVariant.invalid
  toBool v := match v with
    | SampleVariant.invalid => false
    | SampleVariant.bool b => b
    | SampleVariant.int i => i != 0
  toInt v := match v with
    | SampleVariant.invalid => 0
    | SampleVariant.bool b => if b then 1 else 0
    | SampleVariant.int i => i
  toString v := match v with
    | SampleVariant.invalid => ""
    | SampleVariant.bool b => if b then "true" else "false"
    | SampleVariant.int i => toString i

/-- A Setting Map holding the given (name, value) pairs, each Setting stored under its own
name with control address `1`. -/
def sampleMap (l : List (String × SampleVariant)) : SettingMap SampleVariant :=
  l.foldl (fun m e => m.insert e.1 ⟨e.1, some 1, e.2⟩) QMap.empty

/-- A variant map holding the given (key, value) pairs. -/
def samplePayload (l : List (String × SampleVariant)) : QVariantMap SampleVariant :=
  l.foldl (fun m e => m.insert e.1 e.2) QMap.empty

/-- The entry of a sample Setting Map for a control: stored under its own name, with
control address `1`. -/
def sampleEntry (name : String) (value : SampleVariant) : String × Setting SampleVariant :=
  (name, ⟨name, some 1, value⟩)

/-- Accepted settings holding every control that `sendSignals` reads: dumb mode off and
deband enabled with iterations 1, threshold 64, range 16 and grain 48; every other check
box is off and every other index or number is zero. -/
def sampleDebandSettings : SettingMap SampleVariant :=
  ⟨
    [ sampleEntry "cscaleAntiRingSet" (SampleVariant.bool false),
      sampleEntry "cscaleAntiRingValue" (SampleVariant.int 0),
      sampleEntry "cscaleBlurSet" (SampleVariant.bool false),
      sampleEntry "cscaleBlurValue" (SampleVariant.int 0),
      sampleEntry "cscaleClamp" (SampleVariant.bool false),
      sampleEntry "cscaleParam1Set" (SampleVariant.bool false),
      sampleEntry "cscaleParam1Value" (SampleVariant.int 0),
      sampleEntry "cscaleParam2Set" (SampleVariant.bool false),
      sampleEntry "cscaleParam2Value" (SampleVariant.int 0),
      sampleEntry "cscaleRadiusSet" (SampleVariant.bool false),
      sampleEntry "cscaleRadiusValue" (SampleVariant.int 0),
      sampleEntry "cscaleScalar" (SampleVariant.int 0),
      sampleEntry "cscaleWindowParamSet" (SampleVariant.bool false),
      sampleEntry "cscaleWindowParamValue" (SampleVariant.int 0),
      sampleEntry "cscaleWindowSet" (SampleVariant.bool false),
      sampleEntry "cscaleWindowValue" (SampleVariant.int 0),
      sampleEntry "debandEnabled" (SampleVariant.bool true),
      sampleEntry "debandGrain" (SampleVariant.int 48),
      sampleEntry "debandIterations" (SampleVariant.int 1),
      sampleEntry "debandRange" (SampleVariant.int 16),
      sampleEntry "debandThreshold" (SampleVariant.int 64),
      sampleEntry "ditherDepth" (SampleVariant.int 0),
      sampleEntry "ditherDithering" (SampleVariant.bool false),
      sampleEntry "ditherFruitSize" (SampleVariant.int 0),
      sampleEntry "ditherTemporal" (SampleVariant.bool false),
      sampleEntry "ditherTemporalPeriod" (SampleVariant.int 0),
      sampleEntry "ditherType" (SampleVariant.int 0),
      sampleEntry "dscaleAntiRingSet" (SampleVariant.bool false),
      sampleEntry "dscaleAntiRingValue" (SampleVariant.int 0),
      sampleEntry "dscaleBlurSet" (SampleVariant.bool false),
      sampleEntry "dscaleBlurValue" (SampleVariant.int 0),
      sampleEntry "dscaleClamp" (SampleVariant.bool false),
      sampleEntry "dscaleParam1Set" (SampleVariant.bool false),
      sampleEntry "dscaleParam1Value" (SampleVariant.int 0),
      sampleEntry "dscaleParam2Set" (SampleVariant.bool false),
      sampleEntry "dscaleParam2Value" (SampleVariant.int 0),
      sampleEntry "dscaleRadiusSet" (SampleVariant.bool false),
      sampleEntry "dscaleRadiusValue" (SampleVariant.int 0),
      sampleEntry "dscaleScalar" (SampleVariant.int 0),
      sampleEntry "dscaleWindowParamSet" (SampleVariant.bool false),
      sampleEntry "dscaleWindowParamValue" (SampleVariant.int 0),
      sampleEntry "dscaleWindowSet" (SampleVariant.bool false),
      sampleEntry "dscaleWindowValue" (SampleVariant.int 0),
      sampleEntry "framedroppingDecoderMode" (SampleVariant.int 0),
      sampleEntry "framedroppingMode" (SampleVariant.int 0),
      sampleEntry "scaleAntiRingSet" (SampleVariant.bool false),
      sampleEntry "scaleAntiRingValue" (SampleVariant.int 0),
      sampleEntry "scaleBlurSet" (SampleVariant.bool false),
      sampleEntry "scaleBlurValue" (SampleVariant.int 0),
      sampleEntry "scaleClamp" (SampleVariant.bool false),
      sampleEntry "scaleParam1Set" (SampleVariant.bool false),
      sampleEntry "scaleParam1Value" (SampleVariant.int 0),
      sampleEntry "scaleParam2Set" (SampleVariant.bool false),
      sampleEntry "scaleParam2Value" (SampleVariant.int 0),
      sampleEntry "scaleRadiusSet" (SampleVariant.bool false),
      sampleEntry "scaleRadiusValue" (SampleVariant.int 0),
      sampleEntry "scaleScalar" (SampleVariant.int 0),
      sampleEntry "scaleWindowParamSet" (SampleVariant.bool false),
      sampleEntry "scaleWindowParamValue" (SampleVariant.int 0),
      sampleEntry "scaleWindowSet" (SampleVariant.bool false),
      sampleEntry "scaleWindowValue" (SampleVariant.int 0),
      sampleEntry "scalingBlendSubtitles" (SampleVariant.bool false),
      sampleEntry "scalingCorrectDownscaling" (SampleVariant.bool false),
      sampleEntry "scalingInLinearLight" (SampleVariant.bool false),
      sampleEntry "scalingSigmoidizedUpscaling" (SampleVariant.bool false),
      sampleEntry "scalingTemporalInterpolation" (SampleVariant.bool false),
      sampleEntry "sigmoidizedCenter" (SampleVariant.int 0),
      sampleEntry "sigmoidizedSlope" (SampleVariant.int 0),
      sampleEntry "subtitlesForceGrayscale" (SampleVariant.bool false),
      sampleEntry "syncAudioDropSize" (SampleVariant.int 0),
      sampleEntry "syncMaxAudioChange" (SampleVariant.int 0),
      sampleEntry "syncMaxVideoChange" (SampleVariant.int 0),
      sampleEntry "syncMode" (SampleVariant.int 0),
      sampleEntry "tscaleAntiRingSet" (SampleVariant.bool false),
      sampleEntry "tscaleAntiRingValue" (SampleVariant.int 0),
      sampleEntry "tscaleBlurSet" (SampleVariant.bool false),
      sampleEntry "tscaleBlurValue" (SampleVariant.int 0),
      sampleEntry "tscaleClamp" (SampleVariant.bool false),
      sampleEntry "tscaleParam1Set" (SampleVariant.bool false),
      sampleEntry "tscaleParam1Value" (SampleVariant.int 0),
      sampleEntry "tscaleParam2Set" (SampleVariant.bool false),
      sampleEntry "tscaleParam2Value" (SampleVariant.int 0),
      sampleEntry "tscaleRadiusSet" (SampleVariant.bool false),
      sampleEntry "tscaleRadiusValue" (SampleVariant.int 0),
      sampleEntry "tscaleScalar" (SampleVariant.int 0),
      sampleEntry "tscaleWindowParamSet" (SampleVariant.bool false),
      sampleEntry "tscaleWindowParamValue" (SampleVariant.int 0),
      sampleEntry "tscaleWindowSet" (SampleVariant.bool false),
      sampleEntry "tscaleWindowValue" (SampleVariant.int 0),
      sampleEntry "videoDumbMode" (SampleVariant.bool false),
      sampleEntry "videoFramebuffer" (SampleVariant.int 0),
      sampleEntry "videoSharpen" (SampleVariant.int 0),
      sampleEntry "videoUseAlpha" (SampleVariant.bool false) ],
    by
      haveI : IsTrans (String × Setting SampleVariant) (fun a b => keyLt a.1 b.1) :=
        ⟨fun _ _ _ h₁ h₂ => lt_trans h₁ h₂⟩
      exact List.chain'_iff_pairwise.mp
        (by
          simp only [sampleEntry, List.chain'_cons, List.chain'_singleton, and_true]
          repeat' apply And.intro
          all_goals decide)⟩

/-- Accepted settings holding every control that `sendSignals` reads: dumb mode off, the
`param1` check boxes of the downscale and chroma stages checked, `scaleParam1Value` 9,
`dscaleParam1Value` 2 and `cscaleParam1Value` 7; every other check box is off and every
other index or number is zero. -/
def sampleParam1Settings : SettingMap SampleVariant :=
  ⟨
    [ sampleEntry "cscaleAntiRingSet" (SampleVariant.bool false),
      sampleEntry "cscaleAntiRingValue" (SampleVariant.int 0),
      sampleEntry "cscaleBlurSet" (SampleVariant.bool false),
      sampleEntry "cscaleBlurValue" (SampleVariant.int 0),
      sampleEntry "cscaleClamp" (SampleVariant.bool false),
      sampleEntry "cscaleParam1Set" (SampleVariant.bool true),
      sampleEntry "cscaleParam1Value" (SampleVariant.int 7),
      sampleEntry "cscaleParam2Set" (SampleVariant.bool false),
      sampleEntry "cscaleParam2Value" (SampleVariant.int 0),
      sampleEntry "cscaleRadiusSet" (SampleVariant.bool false),
      sampleEntry "cscaleRadiusValue" (SampleVariant.int 0),
      sampleEntry "cscaleScalar" (SampleVariant.int 0),
      sampleEntry "cscaleWindowParamSet" (SampleVariant.bool false),
      sampleEntry "cscaleWindowParamValue" (SampleVariant.int 0),
      sampleEntry "cscaleWindowSet" (SampleVariant.bool false),
      sampleEntry "cscaleWindowValue" (SampleVariant.int 0),
      sampleEntry "debandEnabled" (SampleVariant.bool false),
      sampleEntry "debandGrain" (SampleVariant.int 0),
      sampleEntry "debandIterations" (SampleVariant.int 0),
      sampleEntry "debandRange" (SampleVariant.int 0),
      sampleEntry "debandThreshold" (SampleVariant.int 0),
      sampleEntry "ditherDepth" (SampleVariant.int 0),
      sampleEntry "ditherDithering" (SampleVariant.bool false),
      sampleEntry "ditherFruitSize" (SampleVariant.int 0),
      sampleEntry "ditherTemporal" (SampleVariant.bool false),
      sampleEntry "ditherTemporalPeriod" (SampleVariant.int 0),
      sampleEntry "ditherType" (SampleVariant.int 0),
      sampleEntry "dscaleAntiRingSet" (SampleVariant.bool false),
      sampleEntry "dscaleAntiRingValue" (SampleVariant.int 0),
      sampleEntry "dscaleBlurSet" (SampleVariant.bool false),
      sampleEntry "dscaleBlurValue" (SampleVariant.int 0),
      sampleEntry "dscaleClamp" (SampleVariant.bool false),
      sampleEntry "dscaleParam1Set" (SampleVariant.bool true),
      sampleEntry "dscaleParam1Value" (SampleVariant.int 2),
      sampleEntry "dscaleParam2Set" (SampleVariant.bool false),
      sampleEntry "dscaleParam2Value" (SampleVariant.int 0),
      sampleEntry "dscaleRadiusSet" (SampleVariant.bool false),
      sampleEntry "dscaleRadiusValue" (SampleVariant.int 0),
      sampleEntry "dscaleScalar" (SampleVariant.int 0),
      sampleEntry "dscaleWindowParamSet" (SampleVariant.bool false),
      sampleEntry "dscaleWindowParamValue" (SampleVariant.int 0),
      sampleEntry "dscaleWindowSet" (SampleVariant.bool false),
      sampleEntry "dscaleWindowValue" (SampleVariant.int 0),
      sampleEntry "framedroppingDecoderMode" (SampleVariant.int 0),
      sampleEntry "framedroppingMode" (SampleVariant.int 0),
      sampleEntry "scaleAntiRingSet" (SampleVariant.bool false),
      sampleEntry "scaleAntiRingValue" (SampleVariant.int 0),
      sampleEntry "scaleBlurSet" (SampleVariant.bool false),
      sampleEntry "scaleBlurValue" (SampleVariant.int 0),
      sampleEntry "scaleClamp" (SampleVariant.bool false),
      sampleEntry "scaleParam1Set" (SampleVariant.bool false),
      sampleEntry "scaleParam1Value" (SampleVariant.int 9),
      sampleEntry "scaleParam2Set" (SampleVariant.bool false),
      sampleEntry "scaleParam2Value" (SampleVariant.int 0),
      sampleEntry "scaleRadiusSet" (SampleVariant.bool false),
      sampleEntry "scaleRadiusValue" (SampleVariant.int 0),
      sampleEntry "scaleScalar" (SampleVariant.int 0),
      sampleEntry "scaleWindowParamSet" (SampleVariant.bool false),
      sampleEntry "scaleWindowParamValue" (SampleVariant.int 0),
      sampleEntry "scaleWindowSet" (SampleVariant.bool false),
      sampleEntry "scaleWindowValue" (SampleVariant.int 0),
      sampleEntry "scalingBlendSubtitles" (SampleVariant.bool false),
      sampleEntry "scalingCorrectDownscaling" (SampleVariant.bool false),
      sampleEntry "scalingInLinearLight" (SampleVariant.bool false),
      sampleEntry "scalingSigmoidizedUpscaling" (SampleVariant.bool false),
      sampleEntry "scalingTemporalInterpolation" (SampleVariant.bool false),
      sampleEntry "sigmoidizedCenter" (SampleVariant.int 0),
      sampleEntry "sigmoidizedSlope" (SampleVariant.int 0),
      sampleEntry "subtitlesForceGrayscale" (SampleVariant.bool false),
      sampleEntry "syncAudioDropSize" (SampleVariant.int 0),
      sampleEntry "syncMaxAudioChange" (SampleVariant.int 0),
      sampleEntry "syncMaxVideoChange" (SampleVariant.int 0),
      sampleEntry "syncMode" (SampleVariant.int 0),
      sampleEntry "tscaleAntiRingSet" (SampleVariant.bool false),
      sampleEntry "tscaleAntiRingValue" (SampleVariant.int 0),
      sampleEntry "tscaleBlurSet" (SampleVariant.bool false),
      sampleEntry "tscaleBlurValue" (SampleVariant.int 0),
      sampleEntry "tscaleClamp" (SampleVariant.bool false),
      sampleEntry "tscaleParam1Set" (SampleVariant.bool false),
      sampleEntry "tscaleParam1Value" (SampleVariant.int 0),
      sampleEntry "tscaleParam2Set" (SampleVariant.bool false),
      sampleEntry "tscaleParam2Value" (SampleVariant.int 0),
      sampleEntry "tscaleRadiusSet" (SampleVariant.bool false),
      sampleEntry "tscaleRadiusValue" (SampleVariant.int 0),
      sampleEntry "tscaleScalar" (SampleVariant.int 0),
      sampleEntry "tscaleWindowParamSet" (SampleVariant.bool false),
      sampleEntry "tscaleWindowParamValue" (SampleVariant.int 0),
      sampleEntry "tscaleWindowSet" (SampleVariant.bool false),
      sampleEntry "tscaleWindowValue" (SampleVariant.int 0),
      sampleEntry "videoDumbMode" (SampleVariant.bool false),
      sampleEntry "videoFramebuffer" (SampleVariant.int 0),
      sampleEntry "videoSharpen" (SampleVariant.int 0),
      sampleEntry "videoUseAlpha" (SampleVariant.bool false) ],
    by
      haveI : IsTrans (String × Setting SampleVariant) (fun a b => keyLt a.1 b.1) :=
        ⟨fun _ _ _ h₁ h₂ => lt_trans h₁ h₂⟩
      exact List.chain'_iff_pairwise.mp
        (by
          simp only [sampleEntry, List.chain'_cons, List.chain'_singleton, and_true]
          repeat' apply And.intro
          all_goals decide)⟩

/-- Accepted settings for the Option Translator: an index in range, one beyond the table,
a negative one, and a check box that has no label table. -/
def sampleTranslatorAccepted : SettingMap SampleVariant :=
  sampleMap
    [ ("scaleScalar", SampleVariant.int 3),
      ("tscaleScalar", SampleVariant.int 99),
      ("cscaleScalar", SampleVariant.int (-1)),
      ("videoUseAlpha", SampleVariant.bool true) ]

/-- Default settings for the Option Translator: indices in range for the first two
controls, one beyond the table for the third. -/
def sampleTranslatorDefaults : SettingMap SampleVariant :=
  sampleMap
    [ ("scaleScalar", SampleVariant.int 0),
      ("tscaleScalar", SampleVariant.int 2),
      ("cscaleScalar", SampleVariant.int 40),
      ("videoUseAlpha", SampleVariant.bool false) ]

/-- A leaf or inner object of a sample tree: class name, object name, address, the classes
it inherits besides its own, its value property and its children. -/
def sampleObject (className objectName : String) (address : Nat) (bases : List String)
    (valueProperty : String) (value : SampleVariant)
    (children : List (QObject SampleVariant)) : QObject SampleVariant :=
  QObject.mk className objectName address
    (fun c => c == className || bases.contains c)
    (fun q => if q = valueProperty then value else SampleVariant.invalid)
    children

/-- A small dialog: a layout, a check box, a timer (neither widget nor layout), and a page
holding a combo box and a spin box with its internal line edit. -/
def sampleDialog : QObject SampleVariant :=
  sampleObject "SettingsWindow" "SettingsWindow" 100 ["QWidget", "QObject"] "" SampleVariant.invalid
    [ sampleObject "QVBoxLayout" "verticalLayout" 101 ["QLayout", "QObject"] ""
        SampleVariant.invalid [],
      sampleObject "QCheckBox" "videoDumbMode" 102 ["QWidget", "QObject"] "checked"
        (SampleVariant.bool true) [],
      sampleObject "QTimer" "timer" 103 ["QObject"] "" SampleVariant.invalid
        [ sampleObject "QCheckBox" "unreached" 108 ["QWidget", "QObject"] "checked"
            (SampleVariant.bool true) [] ],
      sampleObject "QWidget" "page" 104 ["QObject"] "" SampleVariant.invalid
        [ sampleObject "QComboBox" "scaleScalar" 105 ["QWidget", "QObject"] "currentIndex"
            (SampleVariant.int 2) [],
          sampleObject "QSpinBox" "debandIterations" 106 ["QWidget", "QObject"] "value"
            (SampleVariant.int 4)
            [ sampleObject "QLineEdit" "qt_spinbox_lineedit" 107 ["QWidget", "QObject"] "text"
                (SampleVariant.int 4) [] ],
          sampleObject "QLineEdit" "" 109 ["QWidget", "QObject"] "text"
            (SampleVariant.int 0) [] ] ]

instance NameIsKey.decidable {V : Type} (m : SettingMap V) : Decidable (NameIsKey m) :=
  inferInstanceAs (Decidable (∀ e ∈ m.entries, e.2.name = e.1))

/-! ## Facts about `QMap` -/

section QMapFacts

variable {V : Type}

theorem char_toNat_valid (c : Char) : c.toNat < 0xD800 ∨ (0xDFFF < c.toNat ∧ c.toNat < 0x110000) :=
  c.valid

theorem char_eq_of_toNat_eq {c d : Char} (h : c.toNat = d.toNat) : c = d := by
  exact Char.ext (UInt32.ext h)

theorem utf16Units_append_inj {c d : Char} {r s : List Nat}
    (h : utf16Units c ++ r = utf16Units d ++ s) : c = d ∧ r = s := by
  have hc := char_toNat_valid c
  have hd := char_toNat_valid d
  unfold utf16Units at h
  split_ifs at h with h1 h2 h2
  · simp only [List.singleton_append, List.cons.injEq] at h
    exact ⟨char_eq_of_toNat_eq h.1, h.2⟩
  · simp only [List.singleton_append, List.cons_append, List.nil_append, List.cons.injEq] at h
    omega
  · simp only [List.singleton_append, List.cons_append, List.nil_append, List.cons.injEq] at h
    omega
  · simp only [List.cons_append, List.nil_append, List.cons.injEq] at h
    refine ⟨char_eq_of_toNat_eq (by omega), h.2.2⟩

theorem utf16_injective {a b : String} (h : QString.utf16 a = QString.utf16 b) : a = b := by
  have key : ∀ l m : List Char, l.flatMap utf16Units = m.flatMap utf16Units → l = m := by
    intro l
    induction l with
    | nil =>
      intro m h
      cases m with
      | nil => rfl
      | cons d m =>
        simp only [List.flatMap_nil, List.flatMap_cons] at h
        unfold utf16Units at h
        split_ifs at h <;> simp at h
    | cons c l ih =>
      intro m h
      cases m with
      | nil =>
        simp only [List.flatMap_nil, List.flatMap_cons] at h
        unfold utf16Units at h
        split_ifs at h <;> simp at h
      | cons d m =>
        simp only [List.flatMap_cons] at h
        obtain ⟨h1, h2⟩ := utf16Units_append_inj h
        rw [h1, ih m h2]
  exact String.ext (key a.toList b.toList h)

theorem keyLt_irrefl (a : String) : ¬ keyLt a a := lt_irrefl (QString.utf16 a)

theorem keyLt_ne {a b : String} (h : keyLt a b) : a ≠ b := by
  intro e; subst e; exact keyLt_irrefl a h

theorem keyLt_asymm {a b : String} (h : keyLt a b) : ¬ keyLt b a := lt_asymm h

theorem eq_of_not_keyLt {a b : String} (h₁ : ¬ keyLt a b) (h₂ : ¬ keyLt b a) : a = b := by
  rcases lt_trichotomy (QString.utf16 a) (QString.utf16 b) with h | h | h
  · exact absurd h h₁
  · exact utf16_injective h
  · exact absurd h h₂

theorem QMap.ext_entries {m₁ m₂ : QMap V} (h : m₁.entries = m₂.entries) : m₁ = m₂ := by
  cases m₁; cases m₂; cases h; rfl

theorem lookup_cons_eq (k : String) (e : String × V) (t : List (String × V)) :
    List.lookup k (e :: t) = if k = e.1 then some e.2 else List.lookup k t := by
  obtain ⟨a, b⟩ := e
  by_cases h : k = a
  · subst h; simp [List.lookup]
  · have : (k == a) = false := by simpa using h
    simp [List.lookup, this, h]

theorem lookup_isSome_iff (k : String) (l : List (String × V)) :
    (List.lookup k l).isSome = true ↔ k ∈ l.map Prod.fst := by
  induction l with
  | nil => simp
  | cons e t ih =>
    rw [lookup_cons_eq]
    by_cases h : k = e.1
    · simp [h]
    · simp [h, ih]

theorem lookup_eq_none_iff (k : String) (l : List (String × V)) :
    List.lookup k l = none ↔ k ∉ l.map Prod.fst := by
  rw [← lookup_isSome_iff]
  cases List.lookup k l <;> simp

theorem mem_of_lookup_eq_some {k : String} {v : V} {l : List (String × V)}
    (h : List.lookup k l = some v) : (k, v) ∈ l := by
  induction l with
  | nil => simp at h
  | cons e t ih =>
    rw [lookup_cons_eq] at h
    by_cases c : k = e.1
    · rw [if_pos c] at h
      have : e = (k, v) := by
        obtain ⟨a, b⟩ := e
        simp at h c
        simp [h, c]
      rw [this]; exact List.mem_cons_self _ _
    · rw [if_neg c] at h
      exact List.mem_cons_of_mem _ (ih h)

theorem lookup_eq_some_of_mem {k : String} {v : V} {l : List (String × V)}
    (hl : l.Pairwise (fun a b => keyLt a.1 b.1)) (h : (k, v) ∈ l) :
    List.lookup k l = some v := by
  induction l with
  | nil => simp at h
  | cons e t ih =>
    obtain ⟨h1, h2⟩ := List.pairwise_cons.mp hl
    rw [lookup_cons_eq]
    rcases List.mem_cons.mp h with rfl | h
    · simp
    · have : k ≠ e.1 := fun c => keyLt_irrefl k (by simpa [c] using h1 (k, v) h)
      rw [if_neg this]
      exact ih h2 h

theorem mem_insertEntries {k : String} {v : V} {l : List (String × V)} {x : String × V}
    (h : x ∈ insertEntries k v l) : x = (k, v) ∨ x ∈ l := by
  induction l with
  | nil => simpa [insertEntries] using h
  | cons e t ih =>
    unfold insertEntries at h
    by_cases c1 : keyLt k e.1
    · rw [if_pos c1] at h
      rcases List.mem_cons.mp h with rfl | h
      · exact Or.inl rfl
      · exact Or.inr h
    · rw [if_neg c1] at h
      by_cases c2 : keyLt e.1 k
      · rw [if_pos c2] at h
        rcases List.mem_cons.mp h with rfl | h
        · exact Or.inr (List.mem_cons_self _ _)
        · rcases ih h with rfl | h
          · exact Or.inl rfl
          · exact Or.inr (List.mem_cons_of_mem _ h)
      · rw [if_neg c2, ← eq_of_not_keyLt c1 c2] at h
        rcases List.mem_cons.mp h with rfl | h
        · exact Or.inl rfl
        · exact Or.inr (List.mem_cons_of_mem _ h)

theorem lookup_insertEntries (k : String) (v : V) (l : List (String × V)) (k' : String) :
    List.lookup k' (insertEntries k v l) = if k' = k then some v else List.lookup k' l := by
  induction l with
  | nil => simp [insertEntries, lookup_cons_eq]
  | cons e t ih =>
    unfold insertEntries
    by_cases c1 : keyLt k e.1
    · rw [if_pos c1, lookup_cons_eq]
    · rw [if_neg c1]
      by_cases c2 : keyLt e.1 k
      · rw [if_pos c2, lookup_cons_eq, ih, lookup_cons_eq]
        have hne : k ≠ e.1 := fun c => keyLt_ne c2 c.symm
        by_cases c4 : k' = k
        · have : k' ≠ e.1 := fun c => hne (c4.symm.trans c)
          simp [c4, hne]
        · simp [c4]
      · have he : k = e.1 := eq_of_not_keyLt c1 c2
        rw [if_neg c2, lookup_cons_eq, lookup_cons_eq, ← he]
        by_cases c4 : k' = k
        · simp [c4]
        · simp [c4]

theorem keys_insertEntries_of_mem {k : String} (v : V) {l : List (String × V)}
    (hl : l.Pairwise (fun a b => keyLt a.1 b.1)) (h : k ∈ l.map Prod.fst) :
    (insertEntries k v l).map Prod.fst = l.map Prod.fst := by
  induction l with
  | nil => simp at h
  | cons e t ih =>
    obtain ⟨h1, h2⟩ := List.pairwise_cons.mp hl
    unfold insertEntries
    by_cases c1 : keyLt k e.1
    · exfalso
      rw [List.map_cons, List.mem_cons] at h
      rcases h with h | h
      · exact keyLt_ne c1 h
      · obtain ⟨x, hx, rfl⟩ := List.mem_map.mp h
        exact keyLt_asymm c1 (h1 x hx)
    · rw [if_neg c1]
      by_cases c2 : keyLt e.1 k
      · rw [if_pos c2]
        rw [List.map_cons, List.mem_cons] at h
        rcases h with h | h
        · exact absurd h.symm (keyLt_ne c2)
        · simp [ih h2 h]
      · rw [if_neg c2]
        rfl

theorem insertEntries_self {k : String} {v : V} {l : List (String × V)}
    (hl : l.Pairwise (fun a b => keyLt a.1 b.1)) (h : List.lookup k l = some v) :
    insertEntries k v l = l := by
  induction l with
  | nil => simp at h
  | cons e t ih =>
    obtain ⟨h1, h2⟩ := List.pairwise_cons.mp hl
    rw [lookup_cons_eq] at h
    unfold insertEntries
    by_cases c1 : keyLt k e.1
    · exfalso
      rw [if_neg (keyLt_ne c1)] at h
      have hm := mem_of_lookup_eq_some h
      exact keyLt_asymm c1 (h1 _ hm)
    · rw [if_neg c1]
      by_cases c2 : keyLt e.1 k
      · have hne : k ≠ e.1 := fun c => keyLt_ne c2 c.symm
        rw [if_neg hne] at h
        rw [if_pos c2, ih h2 h]
      · have he : k = e.1 := eq_of_not_keyLt c1 c2
        rw [if_pos he] at h
        rw [if_neg c2]
        obtain ⟨a, b⟩ := e
        simp only [Option.some.injEq] at h
        simp only [h]

theorem QMap.find_insert (m : QMap V) (k : String) (v : V) (k' : String) :
    (m.insert k v).find k' = if k' = k then some v else m.find k' :=
  lookup_insertEntries k v m.entries k'

theorem QMap.mem_keys_iff (m : QMap V) (k : String) :
    k ∈ m.keys ↔ (m.find k).isSome = true :=
  (lookup_isSome_iff k m.entries).symm

theorem QMap.mem_entries_iff (m : QMap V) (k : String) (v : V) :
    (k, v) ∈ m.entries ↔ m.find k = some v :=
  ⟨lookup_eq_some_of_mem m.ordered, mem_of_lookup_eq_some⟩

theorem QMap.keys_insert_of_mem (m : QMap V) {k : String} (v : V) (h : k ∈ m.keys) :
    (m.insert k v).keys = m.keys :=
  keys_insertEntries_of_mem v m.ordered h

theorem QMap.insert_self (m : QMap V) {k : String} {v : V} (h : m.find k = some v) :
    m.insert k v = m :=
  QMap.ext_entries (insertEntries_self m.ordered h)

end QMapFacts

/-! ## Import and export of a Setting Map -/

section ImportExport

variable {V : Type}

theorem fromVMapStep_of_find_none (ops : QVariantOps V) (m : SettingMap V) (i : String × V)
    (h : m.find i.1 = none) : SettingMap.fromVMapStep ops m i = m := by
  simp [SettingMap.fromVMapStep, QMap.contains, h]

theorem fromVMapStep_of_find_some (ops : QVariantOps V) (m : SettingMap V) (i : String × V)
    (s : Setting V) (h : m.find i.1 = some s) :
    SettingMap.fromVMapStep ops m i = m.insert s.name ⟨s.name, s.widget, i.2⟩ := by
  simp [SettingMap.fromVMapStep, QMap.contains, QMap.value, h]

theorem NameIsKey.name_of_find {m : SettingMap V} (h : NameIsKey m) {k : String}
    {s : Setting V} (hs : m.find k = some s) : s.name = k :=
  h (k, s) (mem_of_lookup_eq_some hs)

theorem fromVMapStep_nameIsKey (ops : QVariantOps V) (m : SettingMap V) (i : String × V)
    (h : NameIsKey m) : NameIsKey (SettingMap.fromVMapStep ops m i) := by
  cases hf : m.find i.1 with
  | none => rw [fromVMapStep_of_find_none ops m i hf]; exact h
  | some s =>
    rw [fromVMapStep_of_find_some ops m i s hf]
    intro e he
    rcases mem_insertEntries he with rfl | he
    · rfl
    · exact h e he

theorem foldl_fromVMapStep_nameIsKey (ops : QVariantOps V) (l : List (String × V))
    (m : SettingMap V) (h : NameIsKey m) :
    NameIsKey (l.foldl (SettingMap.fromVMapStep ops) m) := by
  induction l generalizing m with
  | nil => exact h
  | cons i t ih => exact ih _ (fromVMapStep_nameIsKey ops m i h)

theorem fromVMapStep_keys (ops : QVariantOps V) (m : SettingMap V) (i : String × V)
    (h : NameIsKey m) : (SettingMap.fromVMapStep ops m i).keys = m.keys := by
  cases hf : m.find i.1 with
  | none => rw [fromVMapStep_of_find_none ops m i hf]
  | some s =>
    rw [fromVMapStep_of_find_some ops m i s hf]
    apply QMap.keys_insert_of_mem
    rw [h.name_of_find hf, QMap.mem_keys_iff, hf]
    rfl

theorem foldl_fromVMapStep_keys (ops : QVariantOps V) (l : List (String × V))
    (m : SettingMap V) (h : NameIsKey m) :
    (l.foldl (SettingMap.fromVMapStep ops) m).keys = m.keys := by
  induction l generalizing m with
  | nil => rfl
  | cons i t ih =>
    rw [List.foldl_cons, ih _ (fromVMapStep_nameIsKey ops m i h), fromVMapStep_keys ops m i h]

theorem fromVMapStep_find (ops : QVariantOps V) (m : SettingMap V) (i : String × V)
    (h : NameIsKey m) (k : String) :
    (SettingMap.fromVMapStep ops m i).find k =
      if k = i.1 then (m.find i.1).map (fun s => ⟨s.name, s.widget, i.2⟩) else m.find k := by
  cases hf : m.find i.1 with
  | none =>
    rw [fromVMapStep_of_find_none ops m i hf]
    by_cases c : k = i.1
    · simp [c, hf]
    · simp [c]
  | some s =>
    have hn := h.name_of_find hf
    rw [fromVMapStep_of_find_some ops m i s hf, QMap.find_insert, hn, Option.map_some']
    simp only [hn]

theorem foldl_fixed {α β : Type} (f : β → α → β) (l : List α) (b : β)
    (h : ∀ a ∈ l, f b a = b) : l.foldl f b = b := by
  induction l with
  | nil => rfl
  | cons a t ih =>
    rw [List.foldl_cons, h a (List.mem_cons_self _ _)]
    exact ih (fun x hx => h x (List.mem_cons_of_mem _ hx))

theorem foldl_fromVMapStep_find (ops : QVariantOps V) (l : List (String × V))
    (hl : l.Pairwise (fun a b => keyLt a.1 b.1)) (m : SettingMap V) (h : NameIsKey m)
    (k : String) :
    (l.foldl (SettingMap.fromVMapStep ops) m).find k =
      match List.lookup k l with
      | some v => (m.find k).map (fun s => ⟨s.name, s.widget, v⟩)
      | none => m.find k := by
  induction l generalizing m with
  | nil => rfl
  | cons i t ih =>
    obtain ⟨h1, h2⟩ := List.pairwise_cons.mp hl
    rw [List.foldl_cons, ih h2 _ (fromVMapStep_nameIsKey ops m i h), lookup_cons_eq,
      fromVMapStep_find ops m i h]
    by_cases c : k = i.1
    · have hn : List.lookup k t = none := by
        rw [lookup_eq_none_iff]
        intro hk
        obtain ⟨x, hx, hxk⟩ := List.mem_map.mp hk
        have := h1 x hx
        rw [hxk, c] at this
        exact keyLt_irrefl _ this
      subst c
      simp only [hn, if_true]
    · simp only [if_neg c]

theorem mem_entries_foldl_insert (l : List (Setting V)) (init : QVariantMap V)
    (x : String × V)
    (h : x ∈ (l.foldl (fun m s => m.insert s.name s.value) init).entries) :
    x ∈ init.entries ∨ ∃ s ∈ l, x = (s.name, s.value) := by
  induction l generalizing init with
  | nil => exact Or.inl h
  | cons s t ih =>
    rcases ih _ h with h' | ⟨s', hs', hx⟩
    · rcases mem_insertEntries h' with rfl | h''
      · exact Or.inr ⟨s, List.mem_cons_self _ _, rfl⟩
      · exact Or.inl h''
    · exact Or.inr ⟨s', List.mem_cons_of_mem _ hs', hx⟩

end ImportExport

/-! ## Facts about the control tree -/

section ControlTree

variable {V : Type}

theorem QObject.size_eq (o : QObject V) : o.size = 1 + QObject.sizeList o.children := by
  cases o
  simp [QObject.size, QObject.children]

theorem QObject.sizeList_cons (c : QObject V) (cs : List (QObject V)) :
    QObject.sizeList (c :: cs) = c.size + QObject.sizeList cs := by
  simp [QObject.sizeList]

theorem QObject.sizeList_append (l₁ l₂ : List (QObject V)) :
    QObject.sizeList (l₁ ++ l₂) = QObject.sizeList l₁ + QObject.sizeList l₂ := by
  induction l₁ with
  | nil => simp [QObject.sizeList]
  | cons c cs ih => simp [QObject.sizeList, ih, Nat.add_assoc]

theorem QObject.sizeList_filter_le (f : QObject V → Bool) (l : List (QObject V)) :
    QObject.sizeList (l.filter f) ≤ QObject.sizeList l := by
  induction l with
  | nil => simp [QObject.sizeList]
  | cons c cs ih =>
    rw [List.filter_cons]
    split_ifs
    · simp only [QObject.sizeList_cons]; omega
    · simp only [QObject.sizeList_cons]; omega

theorem QObject.self_mem_subobjects (o : QObject V) : o ∈ o.subobjects := by
  cases o
  simp [QObject.subobjects]

theorem QObject.mem_subobjectsList {o c : QObject V} {cs : List (QObject V)}
    (hc : c ∈ cs) (ho : o ∈ c.subobjects) : o ∈ QObject.subobjectsList cs := by
  induction cs with
  | nil => simp at hc
  | cons d ds ih =>
    simp only [QObject.subobjectsList, List.mem_append]
    rcases List.mem_cons.mp hc with rfl | hc
    · exact Or.inl ho
    · exact Or.inr (ih hc)

theorem QObject.mem_subobjects_of_child {o c q : QObject V}
    (hc : c ∈ q.children) (ho : o ∈ c.subobjects) : o ∈ q.subobjects := by
  cases q
  simp only [QObject.children] at hc
  simp only [QObject.subobjects]
  exact List.mem_cons_of_mem _ (QObject.mem_subobjectsList hc ho)


theorem generateSettingMap.loop_nil (fuel : Nat) (sm : SettingMap V) :
    generateSettingMap.loop fuel ([] : List (QObject V)) sm = some sm := by
  cases fuel <;> rfl

theorem generateSettingMap.loop_spec (this : QObject V) (fuel : Nat) :
    ∀ (toParse : List (QObject V)) (sm : SettingMap V),
      QObject.sizeList toParse ≤ fuel →
      (∀ q ∈ toParse, ∀ o ∈ q.subobjects, o ∈ this.subobjects) →
      (∀ e ∈ sm.entries, e.2.name = e.1 ∧ e.1 ≠ "" ∧ e.1 ≠ "qt_spinbox_lineedit" ∧
        ∃ o ∈ this.subobjects, o.objectName = e.1 ∧ o.className ∈ settingClasses) →
      ∃ m, generateSettingMap.loop fuel toParse sm = some m ∧
        ∀ e ∈ m.entries, e.2.name = e.1 ∧ e.1 ≠ "" ∧ e.1 ≠ "qt_spinbox_lineedit" ∧
          ∃ o ∈ this.subobjects, o.objectName = e.1 ∧ o.className ∈ settingClasses := by
  induction fuel with
  | zero =>
    intro toParse sm hsize _ hsm
    cases toParse with
    | nil => exact ⟨sm, rfl, hsm⟩
    | cons item rest =>
      rw [QObject.sizeList_cons, QObject.size_eq] at hsize
      omega
  | succ fuel ih =>
    intro toParse sm hsize hsub hsm
    cases toParse with
    | nil => exact ⟨sm, rfl, hsm⟩
    | cons item rest =>
      rw [QObject.sizeList_cons, QObject.size_eq] at hsize
      have hrest : ∀ q ∈ rest, ∀ o ∈ q.subobjects, o ∈ this.subobjects :=
        fun q hq => hsub q (List.mem_cons_of_mem _ hq)
      have hitem : ∀ o ∈ item.subobjects, o ∈ this.subobjects :=
        hsub item (List.mem_cons_self _ _)
      unfold generateSettingMap.loop
      by_cases hc : (settingClasses.contains item.className
        && !(item.objectName == "")
        && item.objectName != "qt_spinbox_lineedit") = true
      · rw [if_pos hc]
        dsimp only
        simp only [Bool.and_eq_true, Bool.not_eq_true', beq_eq_false_iff_ne, ne_eq,
          bne_iff_ne, List.contains_eq_any_beq, List.any_eq_true, beq_iff_eq] at hc
        obtain ⟨⟨⟨c, hc1, hc2⟩, hne⟩, hnl⟩ := hc
        apply ih rest _ (by omega) hrest
        intro e he
        rcases mem_insertEntries he with rfl | he
        · refine ⟨rfl, hne, hnl, item, hitem item item.self_mem_subobjects, rfl, ?_⟩
          rw [hc2]; exact hc1
        · exact hsm e he
      · rw [if_neg hc]
        apply ih _ sm _ _ hsm
        · rw [QObject.sizeList_append]
          have := QObject.sizeList_filter_le
            (fun child => child.inherits "QWidget" || child.inherits "QLayout") item.children
          omega
        · intro q hq o ho
          rcases List.mem_append.mp hq with hq | hq
          · exact hrest q hq o ho
          · exact hitem o (QObject.mem_subobjects_of_child (List.mem_of_mem_filter hq) ho)

end ControlTree

/-! ## Claims on import and export -/

section ImportExportClaims

variable {V : Type}

/-- C3: import never introduces new keys. For a Setting Map whose entries are stored under
their own names and any payload, the keys after `fromVMap` are the keys before; a payload
key absent from the map stays absent; and when no payload key is in the map, the map is
left identical. -/
theorem fromVMap_keys_unchanged (ops : QVariantOps V) (m : SettingMap V)
    (payload : QVariantMap V) (h : NameIsKey m) :
    (SettingMap.fromVMap ops m payload).keys = m.keys ∧
    (∀ k ∈ payload.keys, k ∉ m.keys → k ∉ (SettingMap.fromVMap ops m payload).keys) ∧
    ((∀ k ∈ payload.keys, k ∉ m.keys) → SettingMap.fromVMap ops m payload = m) := by
  have hk : (SettingMap.fromVMap ops m payload).keys = m.keys :=
    foldl_fromVMapStep_keys ops payload.entries m h
  refine ⟨hk, ?_, ?_⟩
  · intro k _ hkm
    rw [hk]
    exact hkm
  · intro hno
    apply foldl_fixed
    intro i hi
    apply fromVMapStep_of_find_none
    have : i.1 ∉ m.keys := hno i.1 (List.mem_map_of_mem Prod.fst hi)
    exact (lookup_eq_none_iff i.1 m.entries).mpr this

/-- Witness of C3. -/
theorem fromVMap_keys_unchanged_witness :
    NameIsKey (sampleMap [("debandEnabled", SampleVariant.bool false),
      ("debandGrain", SampleVariant.int 48)]) ∧
    (SettingMap.fromVMap sampleOps
        (sampleMap [("debandEnabled", SampleVariant.bool false),
          ("debandGrain", SampleVariant.int 48)])
        (samplePayload [("debandGrain", SampleVariant.int 7),
          ("forged", SampleVariant.int 1)])).keys =
      (sampleMap [("debandEnabled", SampleVariant.bool false),
        ("debandGrain", SampleVariant.int 48)]).keys :=
  ⟨by decide, (fromVMap_keys_unchanged sampleOps _ _ (by decide)).1⟩

/-- C4: export followed by import is a no-op. For a Setting Map `m` whose entries are stored
under their own names, `m.fromVMap(m.toVMap())` leaves `m` with the same entries (keys,
names, control references and values). -/
theorem fromVMap_toVMap (ops : QVariantOps V) (m : SettingMap V) (h : NameIsKey m) :
    SettingMap.fromVMap ops m m.toVMap = m := by
  apply foldl_fixed
  intro i hi
  rcases mem_entries_foldl_insert m.values QMap.empty i hi with hi' | ⟨s, hs, rfl⟩
  · simp [QMap.empty] at hi'
  · obtain ⟨e, he, rfl⟩ := List.mem_map.mp hs
    have hname : e.2.name = e.1 := h e he
    have hfind : m.find e.2.name = some e.2 := by
      rw [hname]
      exact lookup_eq_some_of_mem m.ordered he
    rw [fromVMapStep_of_find_some ops m _ e.2 hfind]
    exact m.insert_self hfind

/-- Witness of C4. -/
theorem fromVMap_toVMap_witness :
    NameIsKey (sampleMap [("videoSharpen", SampleVariant.int 3),
      ("debandEnabled", SampleVariant.bool true)]) ∧
    SettingMap.fromVMap sampleOps
        (sampleMap [("videoSharpen", SampleVariant.int 3),
          ("debandEnabled", SampleVariant.bool true)])
        (sampleMap [("videoSharpen", SampleVariant.int 3),
          ("debandEnabled", SampleVariant.bool true)]).toVMap =
      sampleMap [("videoSharpen", SampleVariant.int 3),
        ("debandEnabled", SampleVariant.bool true)] :=
  ⟨by decide, fromVMap_toVMap sampleOps _ (by decide)⟩

/-- C5: import replaces only values. For a Setting Map whose entries are stored under their
own names and any payload, the keys after `fromVMap` are the keys before, and for every
key `k` of the map, with `s` the Setting stored under `k` before: if `k` is a payload key
with value `v`, the Setting stored under `k` afterwards is `s` with the value `v` (same
name, same control reference); if `k` is not a payload key, the Setting stored under `k`
afterwards is still `s`. -/
theorem fromVMap_replaces_only_values (ops : QVariantOps V) (m : SettingMap V)
    (payload : QVariantMap V) (h : NameIsKey m) :
    (SettingMap.fromVMap ops m payload).keys = m.keys ∧
    ∀ k ∈ m.keys,
      ∃ s, List.lookup k m.entries = some s ∧
        (∀ v, List.lookup k payload.entries = some v →
          List.lookup k (SettingMap.fromVMap ops m payload).entries =
            some ⟨s.name, s.widget, v⟩) ∧
        (List.lookup k payload.entries = none →
          List.lookup k (SettingMap.fromVMap ops m payload).entries = some s) := by
  refine ⟨(fromVMap_keys_unchanged ops m payload h).1, ?_⟩
  intro k hk
  rw [QMap.mem_keys_iff] at hk
  obtain ⟨s, hs⟩ := Option.isSome_iff_exists.mp hk
  have key := foldl_fromVMapStep_find ops payload.entries payload.ordered m h k
  unfold QMap.find at hs key
  refine ⟨s, hs, ?_, ?_⟩
  · intro v hv
    unfold SettingMap.fromVMap
    rw [key, hv, hs]
    rfl
  · intro hv
    unfold SettingMap.fromVMap
    rw [key, hv, hs]

/-- Witness of C5: the payload value 7 replaces the grain 48, the Setting of `debandEnabled`
stays as it was, and the forged key is not taken. -/
theorem fromVMap_replaces_only_values_witness :
    NameIsKey (sampleMap [("debandEnabled", SampleVariant.bool false),
          ("debandGrain", SampleVariant.int 48)]) ∧
    (∀ k ∈ (sampleMap [("debandEnabled", SampleVariant.bool false),
          ("debandGrain", SampleVariant.int 48)]).keys,
      ∃ s, List.lookup k (sampleMap [("debandEnabled", SampleVariant.bool false),
          ("debandGrain", SampleVariant.int 48)]).entries = some s ∧
        (∀ v, List.lookup k (samplePayload [("debandGrain", SampleVariant.int 7),
          ("forged", SampleVariant.int 1)]).entries = some v →
          List.lookup k (SettingMap.fromVMap sampleOps (sampleMap [("debandEnabled", SampleVariant.bool false),
          ("debandGrain", SampleVariant.int 48)]) (samplePayload [("debandGrain", SampleVariant.int 7),
          ("forged", SampleVariant.int 1)])).entries =
            some ⟨s.name, s.widget, v⟩) ∧
        (List.lookup k (samplePayload [("debandGrain", SampleVariant.int 7),
          ("forged", SampleVariant.int 1)]).entries = none →
          List.lookup k (SettingMap.fromVMap sampleOps (sampleMap [("debandEnabled", SampleVariant.bool false),
          ("debandGrain", SampleVariant.int 48)]) (samplePayload [("debandGrain", SampleVariant.int 7),
          ("forged", SampleVariant.int 1)])).entries = some s)) ∧
    (SettingMap.fromVMap sampleOps (sampleMap [("debandEnabled", SampleVariant.bool false),
          ("debandGrain", SampleVariant.int 48)]) (samplePayload [("debandGrain", SampleVariant.int 7),
          ("forged", SampleVariant.int 1)])).entries.map
        (fun e => (e.1, e.2.name, e.2.widget, e.2.value)) =
      [ ("debandEnabled", "debandEnabled", some 1, SampleVariant.bool false),
        ("debandGrain", "debandGrain", some 1, SampleVariant.int 7) ] :=
  ⟨by decide,
    (fromVMap_replaces_only_values sampleOps (sampleMap [("debandEnabled", SampleVariant.bool false),
          ("debandGrain", SampleVariant.int 48)]) (samplePayload [("debandGrain", SampleVariant.int 7),
          ("forged", SampleVariant.int 1)]) (by decide)).2,
    by decide⟩

end ImportExportClaims

/-! ## Facts about `sendSignals` -/

section SendSignalsFacts

variable {V : Type}

theorem lookup_eq_some_of_mem_of_nodup {α : Type} {k : String} {v : α}
    {l : List (String × α)} (hl : (l.map Prod.fst).Nodup) (h : (k, v) ∈ l) :
    List.lookup k l = some v := by
  induction l with
  | nil => simp at h
  | cons e t ih =>
    rw [List.map_cons, List.nodup_cons] at hl
    rw [lookup_cons_eq]
    rcases List.mem_cons.mp h with rfl | h
    · simp
    · have : k ≠ e.1 := fun c => hl.1 (c ▸ List.mem_map_of_mem Prod.fst h)
      rw [if_neg this]
      exact ih hl.2 h

theorem find_foldl_insert {α : Type} (l : List (String × α)) (hl : (l.map Prod.fst).Nodup)
    (m : QMap α) (k : String) :
    (l.foldl (fun p w => p.insert w.1 w.2) m).find k =
      match List.lookup k l with
      | some v => some v
      | none => m.find k := by
  induction l generalizing m with
  | nil => rfl
  | cons e t ih =>
    rw [List.map_cons, List.nodup_cons] at hl
    rw [List.foldl_cons, ih hl.2, QMap.find_insert, lookup_cons_eq]
    by_cases c : k = e.1
    · have hn : List.lookup k t = none := by
        rw [lookup_eq_none_iff, c]
        exact hl.1
      simp only [hn, if_pos c]
    · simp only [if_neg c]

theorem flatMap_guard_keys_sublist {α : Type} (l : List (Bool × List (String × α))) :
    List.Sublist ((l.flatMap (fun s => if s.1 then s.2 else [])).map Prod.fst)
      ((l.flatMap (fun s => s.2)).map Prod.fst) := by
  induction l with
  | nil => simp
  | cons s t ih =>
    simp only [List.flatMap_cons, List.map_append]
    apply List.Sublist.append _ ih
    cases s.1 <;> simp

theorem statements_keys (ops : QVariantOps V) (acc defs : SettingMap V) :
    ((sendSignals.statements ops acc defs).flatMap (fun s => s.2)).map Prod.fst = paramKeys := by
  rfl

theorem paramKeys_nodup : paramKeys.Nodup := by
  decide

theorem writes_keys_nodup (ops : QVariantOps V) (acc defs : SettingMap V) :
    ((sendSignals.writes ops acc defs).map Prod.fst).Nodup := by
  have h := flatMap_guard_keys_sublist (sendSignals.statements ops acc defs)
  rw [statements_keys] at h
  exact h.nodup paramKeys_nodup

theorem params_find_eq (ops : QVariantOps V) (acc defs : SettingMap V) (k : String) :
    (sendSignals.params ops acc defs).find k = List.lookup k (sendSignals.writes ops acc defs) := by
  unfold sendSignals.params
  rw [find_foldl_insert _ (writes_keys_nodup ops acc defs)]
  cases List.lookup k (sendSignals.writes ops acc defs) <;> rfl

theorem params_mem_entries_iff (ops : QVariantOps V) (acc defs : SettingMap V)
    (w : String × String) :
    w ∈ (sendSignals.params ops acc defs).entries ↔ w ∈ sendSignals.writes ops acc defs := by
  obtain ⟨k, v⟩ := w
  rw [QMap.mem_entries_iff, params_find_eq]
  exact ⟨mem_of_lookup_eq_some, lookup_eq_some_of_mem_of_nodup (writes_keys_nodup ops acc defs)⟩

/-- The emitted string is the colon-join of the emitted tokens. -/
theorem voCommandLine_eq_join (ops : QVariantOps V) (acc defs : SettingMap V) :
    sendSignals.voCommandLine ops acc defs =
      ":".intercalate (sendSignals.emittedTokens ops acc defs) := by
  unfold sendSignals.voCommandLine sendSignals.emittedTokens
  cases ops.toBool (WIDGET_LOOKUP ops acc (ui "videoDumbMode"))
  · rfl
  · rfl

theorem prefix_separator {a b r : List Char} {c : Char} (ha : c ∉ a) (hb : c ∉ b)
    (h : a ++ [c] <+: b ++ c :: r) : a = b := by
  induction a generalizing b with
  | nil =>
    cases b with
    | nil => rfl
    | cons x b' =>
      simp only [List.nil_append, List.cons_append, List.cons_prefix_cons] at h
      exact absurd (h.1 ▸ List.mem_cons_self _ _) hb
  | cons y a' ih =>
    cases b with
    | nil =>
      simp only [List.nil_append, List.cons_append, List.cons_prefix_cons] at h
      exact absurd (h.1 ▸ List.mem_cons_self _ _) ha
    | cons x b' =>
      simp only [List.cons_append, List.cons_prefix_cons] at h
      rw [h.1, ih (fun hc => ha (List.mem_cons_of_mem _ hc))
        (fun hc => hb (List.mem_cons_of_mem _ hc)) h.2]

theorem tokenHasKey_renderToken (k k' v : String) (hk : '=' ∉ k.toList)
    (hk' : '=' ∉ k'.toList) : tokenHasKey (renderToken (k', v)) k = true ↔ k' = k := by
  have hdata : ∀ s t : String, (s ++ t).toList = s.toList ++ t.toList := fun _ _ => rfl
  unfold tokenHasKey renderToken
  simp only [Bool.or_eq_true, beq_iff_eq, List.isPrefixOf_iff_prefix, hdata]
  have hsep : "=".toList = ['='] := rfl
  rw [hsep]
  constructor
  · rintro (h | h)
    · split_ifs at h with hv
      · exact h
      · exfalso
        apply hk
        rw [← h]
        simp [hdata, hsep]
    · split_ifs at h with hv
      · exfalso
        exact hk' (h.subset (by simp))
      · simp only [hdata, hsep, List.append_assoc, List.singleton_append] at h
        exact String.ext (prefix_separator hk hk' h).symm
  · rintro rfl
    by_cases hv : v = ""
    · left; simp [hv]
    · right
      simp only [hv, if_false, hdata, hsep]
      rw [List.append_assoc]
      exact (List.prefix_append_right_inj _).mpr (List.prefix_append _ _)

theorem paramKeys_no_separator : ∀ k ∈ paramKeys, '=' ∉ k.toList := by
  decide

theorem params_keys_subset (ops : QVariantOps V) (acc defs : SettingMap V) :
    ∀ e ∈ (sendSignals.params ops acc defs).entries, e.1 ∈ paramKeys := by
  intro e he
  have hsub := (flatMap_guard_keys_sublist (sendSignals.statements ops acc defs)).subset
  rw [statements_keys] at hsub
  exact hsub (List.mem_map_of_mem Prod.fst ((params_mem_entries_iff ops acc defs e).mp he))

theorem cmdline_tokenHasKey (ops : QVariantOps V) (acc defs : SettingMap V) (k : String)
    (hk : '=' ∉ k.toList) (e : String × String)
    (he : e ∈ (sendSignals.params ops acc defs).entries) :
    tokenHasKey (renderToken e) k = true ↔ e.1 = k :=
  tokenHasKey_renderToken k e.1 e.2 hk (paramKeys_no_separator e.1 (params_keys_subset ops acc defs e he))

theorem lookup_append_eq {α : Type} (k : String) (l₁ l₂ : List (String × α)) :
    List.lookup k (l₁ ++ l₂) =
      match List.lookup k l₁ with
      | some v => some v
      | none => List.lookup k l₂ := by
  induction l₁ with
  | nil => rfl
  | cons e t ih =>
    rw [List.cons_append, lookup_cons_eq, lookup_cons_eq]
    by_cases c : k = e.1
    · simp only [if_pos c]
    · simp only [if_neg c]; exact ih

theorem lookup_guarded_statements {α : Type} (k : String)
    (l : List (Bool × List (String × α)))
    (hl : ((l.flatMap (fun s => s.2)).map Prod.fst).Nodup) :
    List.lookup k (l.flatMap (fun s => if s.1 then s.2 else [])) =
      (l.find? (fun s => (s.2.map Prod.fst).contains k)).bind
        (fun s => if s.1 then List.lookup k s.2 else none) := by
  induction l with
  | nil => rfl
  | cons s t ih =>
    obtain ⟨g, ws⟩ := s
    simp only [List.flatMap_cons, List.map_append] at hl
    have hl' := List.nodup_append.mp hl
    rw [List.flatMap_cons, lookup_append_eq, List.find?_cons, ih hl'.2.1]
    by_cases hk : k ∈ ws.map Prod.fst
    · have hc : (ws.map Prod.fst).contains k = true := by simpa using hk
      have hnone : t.find? (fun s => (s.2.map Prod.fst).contains k) = none := by
        rw [List.find?_eq_none]
        intro x hx hcx
        have hkx : k ∈ x.2.map Prod.fst := by simpa using hcx
        apply hl'.2.2 hk
        rw [List.map_flatMap]
        exact List.mem_flatMap.mpr ⟨x, hx, hkx⟩
      simp only [hc, hnone, Option.bind_some, Option.bind_none]
      cases g
      · rfl
      · obtain ⟨v, hv⟩ := Option.isSome_iff_exists.mp ((lookup_isSome_iff k ws).mpr hk)
        simp only [if_true, hv]
        exact hv.symm
    · have hc : (ws.map Prod.fst).contains k = false := by simpa using hk
      have hnone : List.lookup k (if g = true then ws else []) = none := by
        cases g
        · rfl
        · exact (lookup_eq_none_iff k ws).mpr hk
      simp only [hc, hnone]

theorem params_find_statement (ops : QVariantOps V) (acc defs : SettingMap V) (k : String) :
    (sendSignals.params ops acc defs).find k =
      ((sendSignals.statements ops acc defs).find?
          (fun s => (s.2.map Prod.fst).contains k)).bind
        (fun s => if s.1 then List.lookup k s.2 else none) := by
  rw [params_find_eq]
  unfold sendSignals.writes
  exact lookup_guarded_statements k (sendSignals.statements ops acc defs)
    (by rw [statements_keys]; exact paramKeys_nodup)

theorem bind_guard_eq_none {β γ : Type} (o : Option (Bool × β)) (f : Bool × β → Option γ)
    (h : o.map Prod.fst = some false ∨ o = none) :
    o.bind (fun s => if s.1 then f s else none) = none := by
  rcases h with h | h
  · cases o with
    | none => rfl
    | some s =>
      obtain ⟨g, b⟩ := s
      simp only [Option.map_some', Option.some.injEq] at h
      subst h
      rfl
  · rw [h]; rfl

theorem QMap.not_mem_entries_of_find_none {α : Type} (m : QMap α) {k : String}
    (h : m.find k = none) : ∀ e ∈ m.entries, e.1 ≠ k := by
  intro e he hk
  have := (m.mem_entries_iff e.1 e.2).mp he
  rw [hk, h] at this
  cases this

theorem keyLt_pairwise_nodup {α : Type} {l : List (String × α)}
    (h : l.Pairwise (fun a b => keyLt a.1 b.1)) : l.Nodup :=
  List.Pairwise.imp (fun {a b} hab (e : a = b) => keyLt_irrefl a.1 (by rw [← e] at hab; exact hab)) h

theorem eq_of_ordered_of_mem_iff {α : Type} {l₁ l₂ : List (String × α)}
    (h₁ : l₁.Pairwise (fun a b => keyLt a.1 b.1)) (h₂ : l₂.Pairwise (fun a b => keyLt a.1 b.1))
    (h : ∀ x, x ∈ l₁ ↔ x ∈ l₂) : l₁ = l₂ := by
  haveI : IsAntisymm (String × α) (fun a b => keyLt a.1 b.1) :=
    ⟨fun _ _ hab hba => absurd hba (keyLt_asymm hab)⟩
  exact List.eq_of_perm_of_sorted
    ((List.perm_ext_iff_of_nodup (keyLt_pairwise_nodup h₁) (keyLt_pairwise_nodup h₂)).mpr h)
    h₁ h₂

theorem QMap.eq_of_mem_of_key_eq {α : Type} (m : QMap α) {x y : String × α}
    (hx : x ∈ m.entries) (hy : y ∈ m.entries) (h : x.1 = y.1) : x = y := by
  obtain ⟨k, v⟩ := x
  obtain ⟨k', v'⟩ := y
  simp only at h
  subst h
  have h1 := (m.mem_entries_iff k v).mp hx
  have h2 := (m.mem_entries_iff k v').mp hy
  rw [h1] at h2
  cases h2
  rfl

end SendSignalsFacts

/-! ## Claims on the Option Translator and the Command Assembler -/

section AssemblerClaims

variable {V : Type}

/-- No control name is registered twice in `indexedValueToText`, so a lookup of the
initialiser list reads what the hash holds. -/
theorem indexedValueToText_keys_nodup : (indexedValueToText.map Prod.fst).Nodup := by
  decide

/-- No class is registered twice in `classToProperty`. -/
theorem classToProperty_keys_nodup : (classToProperty.map Prod.fst).Nodup := by
  decide

/-- C1: when the accepted value of the control `videoDumbMode` is true, the command emitted
through `voCommandLine` is exactly `dumb-mode`, whatever the other settings and the
defaults are. -/
theorem sendSignals_dumb_mode (ops : QVariantOps V) (acc defs : SettingMap V)
    (h : ops.toBool (WIDGET_LOOKUP ops acc (ui "videoDumbMode")) = true) :
    sendSignals.voCommandLine ops acc defs = "dumb-mode" := by
  unfold sendSignals.voCommandLine
  rw [if_pos h]

/-- Witness of C1. -/
theorem sendSignals_dumb_mode_witness :
    sampleOps.toBool (WIDGET_LOOKUP sampleOps
      (sampleMap [("videoDumbMode", SampleVariant.bool true),
        ("debandEnabled", SampleVariant.bool true)]) (ui "videoDumbMode")) = true ∧
    sendSignals.voCommandLine sampleOps
      (sampleMap [("videoDumbMode", SampleVariant.bool true),
        ("debandEnabled", SampleVariant.bool true)])
      (sampleMap [("videoDumbMode", SampleVariant.bool false)]) = "dumb-mode" :=
  ⟨by decide, sendSignals_dumb_mode sampleOps _ _ (by decide)⟩

theorem QStringList.value_value (T : List String) (a d : Int) :
    QStringList.value T a (QStringList.value T d "") =
      if ha : 0 ≤ a ∧ a < (T.length : Int) then T.get ⟨a.toNat, by omega⟩
      else if hd : 0 ≤ d ∧ d < (T.length : Int) then T.get ⟨d.toNat, by omega⟩
      else "" := by
  unfold QStringList.value
  by_cases ha : 0 ≤ a ∧ a < (T.length : Int)
  · have h1 : ¬ (a < 0 ∨ a ≥ (T.length : Int)) := by omega
    have h2 : a.toNat < T.length := by omega
    rw [dif_pos ha, if_neg h1, List.getD_eq_getElem _ _ h2]
    rfl
  · have h1 : a < 0 ∨ a ≥ (T.length : Int) := by omega
    rw [dif_neg ha, if_pos h1]
    by_cases hd : 0 ≤ d ∧ d < (T.length : Int)
    · have h3 : ¬ (d < 0 ∨ d ≥ (T.length : Int)) := by omega
      have h4 : d.toNat < T.length := by omega
      rw [dif_pos hd, if_neg h3, List.getD_eq_getElem _ _ h4]
      rfl
    · have h3 : d < 0 ∨ d ≥ (T.length : Int) := by omega
      rw [dif_neg hd, if_pos h3]

theorem OFFSET_LOOKUP_eq (ops : QVariantOps V) (source : SettingMap V) (n : String) :
    OFFSET_LOOKUP ops source n =
      ops.toInt (((List.lookup n source.entries).map Setting.value).getD ops.invalid) := by
  unfold OFFSET_LOOKUP QMap.value QMap.find
  cases List.lookup n source.entries <;> rfl

/-- C2: the Option Translator. For a control name `n`, let `T` be the label list registered
for `n` in `indexedValueToText` (empty when `n` has no entry), `a` the integer conversion of
the value stored under `n` in the accepted map and `d` that of the value stored under `n`
in the defaults map (the conversion of the invalid variant when the map has no such
entry). `WIDGET_TO_TEXT` yields `T[a]` when `0 ≤ a < |T|`, otherwise `T[d]` when
`0 ≤ d < |T|`, otherwise the empty string. It is a total function. -/
theorem WIDGET_TO_TEXT_eq (ops : QVariantOps V) (acc defs : SettingMap V) (n : String) :
    WIDGET_TO_TEXT ops acc defs n =
      if ha : 0 ≤ ops.toInt (((List.lookup n acc.entries).map Setting.value).getD ops.invalid) ∧
          ops.toInt (((List.lookup n acc.entries).map Setting.value).getD ops.invalid) <
            ((indexedValueToText.lookup n).getD []).length then
        ((indexedValueToText.lookup n).getD []).get
          ⟨(ops.toInt
            (((List.lookup n acc.entries).map Setting.value).getD ops.invalid)).toNat,
            by omega⟩
      else if hd :
          0 ≤ ops.toInt (((List.lookup n defs.entries).map Setting.value).getD ops.invalid) ∧
          ops.toInt (((List.lookup n defs.entries).map Setting.value).getD ops.invalid) <
            ((indexedValueToText.lookup n).getD []).length then
        ((indexedValueToText.lookup n).getD []).get
          ⟨(ops.toInt
            (((List.lookup n defs.entries).map Setting.value).getD ops.invalid)).toNat,
            by omega⟩
      else "" := by
  unfold WIDGET_TO_TEXT indexedValueToText.index
  rw [OFFSET_LOOKUP_eq ops acc n, OFFSET_LOOKUP_eq ops defs n]
  exact QStringList.value_value _ _ _

/-- Instances of C2: the accepted index 3 of `scaleScalar` gives the fourth label; the
accepted index 99 of `tscaleScalar` is out of range and the default index 2 gives the third
label; for `cscaleScalar` both indices (-1 and 40) are out of range and the result is
empty; `videoUseAlpha` has no label list and the result is empty. -/
theorem WIDGET_TO_TEXT_eq_witness :
    WIDGET_TO_TEXT sampleOps sampleTranslatorAccepted sampleTranslatorDefaults "scaleScalar" =
      "spline16" ∧
    WIDGET_TO_TEXT sampleOps sampleTranslatorAccepted sampleTranslatorDefaults "tscaleScalar" =
      "spline36" ∧
    WIDGET_TO_TEXT sampleOps sampleTranslatorAccepted sampleTranslatorDefaults "cscaleScalar" =
      "" ∧
    WIDGET_TO_TEXT sampleOps sampleTranslatorAccepted sampleTranslatorDefaults "videoUseAlpha" =
      "" :=
  ⟨(WIDGET_TO_TEXT_eq sampleOps sampleTranslatorAccepted sampleTranslatorDefaults
      "scaleScalar").trans (by decide),
    (WIDGET_TO_TEXT_eq sampleOps sampleTranslatorAccepted sampleTranslatorDefaults
      "tscaleScalar").trans (by decide),
    (WIDGET_TO_TEXT_eq sampleOps sampleTranslatorAccepted sampleTranslatorDefaults
      "cscaleScalar").trans (by decide),
    (WIDGET_TO_TEXT_eq sampleOps sampleTranslatorAccepted sampleTranslatorDefaults
      "videoUseAlpha").trans (by decide)⟩

set_option maxRecDepth 100000

/-- C6: gating by the "Set" checkboxes. For each scaling stage `p` and each gated sub-field
`f`, if the accepted value of the checkbox `p ++ f.2` (such as `scaleParam1Set`) is false,
then `params` has no entry with the key `p-f` and no token of the emitted command (the
colon-join of the emitted tokens) has the key `p-f`, whatever the paired field holds. -/
theorem sendSignals_gated_field_absent (ops : QVariantOps V) (acc defs : SettingMap V)
    (p : String) (hp : p ∈ scalingStages) (f : String × String) (hf : f ∈ gatedFields)
    (hset : ops.toBool (WIDGET_LOOKUP ops acc (ui (p ++ f.2))) = false) :
    sendSignals.voCommandLine ops acc defs =
        ":".intercalate (sendSignals.emittedTokens ops acc defs) ∧
      (∀ e ∈ (sendSignals.params ops acc defs).entries, e.1 ≠ p ++ "-" ++ f.1) ∧
      ∀ tok ∈ sendSignals.emittedTokens ops acc defs,
        tokenHasKey tok (p ++ "-" ++ f.1) = false := by
  have hlit : ∀ p ∈ scalingStages, ∀ f ∈ gatedFields,
      '=' ∉ (p ++ "-" ++ f.1).toList ∧ tokenHasKey "dumb-mode" (p ++ "-" ++ f.1) = false := by
    decide
  have hguard : ∀ g : Bool, ops.toBool (WIDGET_LOOKUP ops acc (ui (p ++ f.2))) = g →
      (((sendSignals.statements ops acc defs).find?
          (fun s => (s.2.map Prod.fst).contains (p ++ "-" ++ f.1))).map Prod.fst = some g ∨
        (sendSignals.statements ops acc defs).find?
          (fun s => (s.2.map Prod.fst).contains (p ++ "-" ++ f.1)) = none) := by
    simp only [scalingStages, gatedFields, List.mem_cons, List.mem_singleton,
      List.not_mem_nil, or_false] at hp hf
    intro g hg
    subst hg
    rcases hp with rfl | rfl | rfl | rfl <;>
      rcases hf with rfl | rfl | rfl | rfl | rfl | rfl | rfl <;>
      first
        | exact Or.inl rfl
        | exact Or.inr rfl
  have hfind : (sendSignals.params ops acc defs).find (p ++ "-" ++ f.1) = none := by
    rw [params_find_statement]
    exact bind_guard_eq_none _ _ (hguard false hset)
  have hentries : ∀ e ∈ (sendSignals.params ops acc defs).entries, e.1 ≠ p ++ "-" ++ f.1 :=
    QMap.not_mem_entries_of_find_none _ hfind
  refine ⟨voCommandLine_eq_join ops acc defs, hentries, ?_⟩
  intro tok htok
  unfold sendSignals.emittedTokens at htok
  split_ifs at htok
  · rw [List.mem_singleton] at htok
    rw [htok]
    exact (hlit p hp f hf).2
  · obtain ⟨e, he, rfl⟩ := List.mem_map.mp htok
    rw [Bool.eq_false_iff]
    intro hkey
    exact hentries e he ((cmdline_tokenHasKey ops acc defs _ (hlit p hp f hf).1 e he).mp hkey)

/-- Witness of C6: the check box `scaleParam1Set` is off while `scaleParam1Value` holds 9. -/
theorem sendSignals_gated_field_absent_witness :
    "scale" ∈ scalingStages ∧ ("param1", "Param1Set") ∈ gatedFields ∧
    sampleOps.toBool
      (WIDGET_LOOKUP sampleOps sampleParam1Settings (ui ("scale" ++ "Param1Set"))) = false ∧
    ∀ tok ∈ sendSignals.emittedTokens sampleOps sampleParam1Settings sampleParam1Settings,
      tokenHasKey tok ("scale" ++ "-" ++ "param1") = false :=
  ⟨by decide, by decide, by decide,
    (sendSignals_gated_field_absent sampleOps sampleParam1Settings sampleParam1Settings
      "scale" (by decide) ("param1", "Param1Set") (by decide) (by decide)).2.2⟩

/-- C7: the deband block. The token list assembled by `sendSignals` is `cmdline`, whose
colon-join is the emitted command when dumb mode is off. If the accepted value of
`debandEnabled` is false, `params` has no entry and `cmdline` no token with one of the five
deband keys. If it is true, the entries of `params` with a deband key are exactly five:
`deband` with an empty value and `deband-grain`, `deband-iterations`, `deband-range`,
`deband-threshold` with the texts of the accepted values of `debandGrain`,
`debandIterations`, `debandRange` and `debandThreshold`; and the tokens of `cmdline` with a
deband key are exactly five: the bare token `deband` and, for each of the four, the key,
an equals sign and the text of the accepted value (the bare key when that text is
empty). -/
theorem sendSignals_deband_block (ops : QVariantOps V) (acc defs : SettingMap V) :
    (ops.toBool (WIDGET_LOOKUP ops acc (ui "videoDumbMode")) = false →
      sendSignals.voCommandLine ops acc defs =
        ":".intercalate (sendSignals.cmdline ops acc defs)) ∧
    (ops.toBool (WIDGET_LOOKUP ops acc (ui "debandEnabled")) = false →
      (∀ t ∈ (sendSignals.params ops acc defs).entries, t.1 ∉ debandKeys) ∧
      ∀ tok ∈ sendSignals.cmdline ops acc defs, ∀ k ∈ debandKeys, tokenHasKey tok k = false) ∧
    (ops.toBool (WIDGET_LOOKUP ops acc (ui "debandEnabled")) = true →
      (sendSignals.params ops acc defs).entries.filter (fun t => debandKeys.contains t.1) =
        [ ("deband", ""),
          ("deband-grain", ops.toString (WIDGET_LOOKUP ops acc (ui "debandGrain"))),
          ("deband-iterations", ops.toString (WIDGET_LOOKUP ops acc (ui "debandIterations"))),
          ("deband-range", ops.toString (WIDGET_LOOKUP ops acc (ui "debandRange"))),
          ("deband-threshold", ops.toString (WIDGET_LOOKUP ops acc (ui "debandThreshold"))) ] ∧
      (sendSignals.cmdline ops acc defs).filter
          (fun tok => debandKeys.any (fun k => tokenHasKey tok k)) =
        [ "deband",
          if ops.toString (WIDGET_LOOKUP ops acc (ui "debandGrain")) = "" then "deband-grain"
          else "deband-grain" ++ "=" ++ ops.toString (WIDGET_LOOKUP ops acc (ui "debandGrain")),
          if ops.toString (WIDGET_LOOKUP ops acc (ui "debandIterations")) = "" then
            "deband-iterations"
          else "deband-iterations" ++ "=" ++
            ops.toString (WIDGET_LOOKUP ops acc (ui "debandIterations")),
          if ops.toString (WIDGET_LOOKUP ops acc (ui "debandRange")) = "" then "deband-range"
          else "deband-range" ++ "=" ++ ops.toString (WIDGET_LOOKUP ops acc (ui "debandRange")),
          if ops.toString (WIDGET_LOOKUP ops acc (ui "debandThreshold")) = "" then
            "deband-threshold"
          else "deband-threshold" ++ "=" ++
            ops.toString (WIDGET_LOOKUP ops acc (ui "debandThreshold")) ]) := by
  have hsep : ∀ k ∈ debandKeys, '=' ∉ k.toList := by decide
  have hany : ∀ e ∈ (sendSignals.params ops acc defs).entries,
      debandKeys.any (fun k => tokenHasKey (renderToken e) k) = debandKeys.contains e.1 := by
    intro e he
    have hc : debandKeys.contains e.1 = true ↔ e.1 ∈ debandKeys := by simp
    rw [Bool.eq_iff_iff, List.any_eq_true, hc]
    constructor
    · rintro ⟨k, hk, hkey⟩
      rw [(cmdline_tokenHasKey ops acc defs k (hsep k hk) e he).mp hkey]
      exact hk
    · intro hk
      exact ⟨e.1, hk, (cmdline_tokenHasKey ops acc defs e.1 (hsep e.1 hk) e he).mpr rfl⟩
  have f0 : (sendSignals.params ops acc defs).find "deband" =
      if ops.toBool (WIDGET_LOOKUP ops acc (ui "debandEnabled")) then some "" else none :=
    (params_find_statement ops acc defs "deband").trans rfl
  have f1 : (sendSignals.params ops acc defs).find "deband-grain" =
      if ops.toBool (WIDGET_LOOKUP ops acc (ui "debandEnabled")) then
        some (ops.toString (WIDGET_LOOKUP ops acc (ui "debandGrain"))) else none :=
    (params_find_statement ops acc defs "deband-grain").trans rfl
  have f2 : (sendSignals.params ops acc defs).find "deband-iterations" =
      if ops.toBool (WIDGET_LOOKUP ops acc (ui "debandEnabled")) then
        some (ops.toString (WIDGET_LOOKUP ops acc (ui "debandIterations"))) else none :=
    (params_find_statement ops acc defs "deband-iterations").trans rfl
  have f3 : (sendSignals.params ops acc defs).find "deband-range" =
      if ops.toBool (WIDGET_LOOKUP ops acc (ui "debandEnabled")) then
        some (ops.toString (WIDGET_LOOKUP ops acc (ui "debandRange"))) else none :=
    (params_find_statement ops acc defs "deband-range").trans rfl
  have f4 : (sendSignals.params ops acc defs).find "deband-threshold" =
      if ops.toBool (WIDGET_LOOKUP ops acc (ui "debandEnabled")) then
        some (ops.toString (WIDGET_LOOKUP ops acc (ui "debandThreshold"))) else none :=
    (params_find_statement ops acc defs "deband-threshold").trans rfl
  refine ⟨?_, ?_, ?_⟩
  · intro h
    unfold sendSignals.voCommandLine
    rw [h]
    rfl
  · intro h
    rw [h] at f0 f1 f2 f3 f4
    have hentries : ∀ t ∈ (sendSignals.params ops acc defs).entries, t.1 ∉ debandKeys := by
      intro t ht hk
      simp only [debandKeys, List.mem_cons, List.mem_singleton, List.not_mem_nil,
        or_false] at hk
      rcases hk with hk | hk | hk | hk | hk
      · exact QMap.not_mem_entries_of_find_none _ f0 t ht hk
      · exact QMap.not_mem_entries_of_find_none _ f2 t ht hk
      · exact QMap.not_mem_entries_of_find_none _ f4 t ht hk
      · exact QMap.not_mem_entries_of_find_none _ f3 t ht hk
      · exact QMap.not_mem_entries_of_find_none _ f1 t ht hk
    refine ⟨hentries, ?_⟩
    intro tok htok k hk
    obtain ⟨e, he, rfl⟩ := List.mem_map.mp htok
    rw [Bool.eq_false_iff]
    intro hkey
    apply hentries e he
    rw [(cmdline_tokenHasKey ops acc defs k (hsep k hk) e he).mp hkey]
    exact hk
  · intro h
    rw [h] at f0 f1 f2 f3 f4
    have m0 := (QMap.mem_entries_iff _ _ _).mpr f0
    have m1 := (QMap.mem_entries_iff _ _ _).mpr f1
    have m2 := (QMap.mem_entries_iff _ _ _).mpr f2
    have m3 := (QMap.mem_entries_iff _ _ _).mpr f3
    have m4 := (QMap.mem_entries_iff _ _ _).mpr f4
    have hfilter : (sendSignals.params ops acc defs).entries.filter
        (fun t => debandKeys.contains t.1) =
        [ ("deband", ""),
          ("deband-grain", ops.toString (WIDGET_LOOKUP ops acc (ui "debandGrain"))),
          ("deband-iterations", ops.toString (WIDGET_LOOKUP ops acc (ui "debandIterations"))),
          ("deband-range", ops.toString (WIDGET_LOOKUP ops acc (ui "debandRange"))),
          ("deband-threshold",
            ops.toString (WIDGET_LOOKUP ops acc (ui "debandThreshold"))) ] := by
      apply eq_of_ordered_of_mem_iff
      · exact List.Pairwise.filter _ (sendSignals.params ops acc defs).ordered
      · simp only [List.pairwise_cons, List.mem_cons, List.mem_singleton, List.not_mem_nil,
          forall_eq_or_imp, forall_eq, List.Pairwise.nil, IsEmpty.forall_iff, implies_true,
          and_true, or_false]
        decide
      · intro x
        rw [List.mem_filter]
        constructor
        · rintro ⟨hx, hkx⟩
          have hkx' : x.1 ∈ debandKeys := by simpa using hkx
          simp only [debandKeys, List.mem_cons, List.mem_singleton, List.not_mem_nil,
            or_false] at hkx'
          rcases hkx' with hk | hk | hk | hk | hk
          · rw [QMap.eq_of_mem_of_key_eq _ hx m0 hk]; simp
          · rw [QMap.eq_of_mem_of_key_eq _ hx m2 hk]; simp
          · rw [QMap.eq_of_mem_of_key_eq _ hx m4 hk]; simp
          · rw [QMap.eq_of_mem_of_key_eq _ hx m3 hk]; simp
          · rw [QMap.eq_of_mem_of_key_eq _ hx m1 hk]; simp
        · intro hx
          simp only [List.mem_cons, List.mem_singleton, List.not_mem_nil, or_false] at hx
          rcases hx with rfl | rfl | rfl | rfl | rfl
          · exact ⟨m0, by decide⟩
          · exact ⟨m1, (by decide : debandKeys.contains "deband-grain" = true)⟩
          · exact ⟨m2, (by decide : debandKeys.contains "deband-iterations" = true)⟩
          · exact ⟨m3, (by decide : debandKeys.contains "deband-range" = true)⟩
          · exact ⟨m4, (by decide : debandKeys.contains "deband-threshold" = true)⟩
    refine ⟨hfilter, ?_⟩
    have hcongr : (sendSignals.params ops acc defs).entries.filter
        ((fun tok => debandKeys.any (fun k => tokenHasKey tok k)) ∘ renderToken) =
        (sendSignals.params ops acc defs).entries.filter (fun t => debandKeys.contains t.1) :=
      List.filter_congr (fun e he => hany e he)
    unfold sendSignals.cmdline
    rw [List.filter_map, hcongr, hfilter]
    rfl

/-- Witness of C7: in `sampleDebandSettings` deband is enabled with grain 48, iterations 1,
range 16 and threshold 64; in `sampleParam1Settings` it is disabled. -/
theorem sendSignals_deband_block_witness :
    sampleOps.toBool (WIDGET_LOOKUP sampleOps sampleDebandSettings (ui "debandEnabled")) = true ∧
    (sendSignals.cmdline sampleOps sampleDebandSettings sampleDebandSettings).filter
        (fun tok => debandKeys.any (fun k => tokenHasKey tok k)) =
      [ "deband", "deband-grain=48", "deband-iterations=1", "deband-range=16",
        "deband-threshold=64" ] ∧
    sendSignals.voCommandLine sampleOps sampleDebandSettings sampleDebandSettings =
      "alpha:cscale=bilinear:deband:deband-grain=48:deband-iterations=1:deband-range=16:deband-threshold=64:fbo-format=rgb8:scale=bilinear:sharpen=0:tscale=oversample" ∧
    sampleOps.toBool (WIDGET_LOOKUP sampleOps sampleParam1Settings (ui "debandEnabled")) = false ∧
    (∀ tok ∈ sendSignals.cmdline sampleOps sampleParam1Settings sampleParam1Settings,
      ∀ k ∈ debandKeys, tokenHasKey tok k = false) ∧
    sendSignals.cmdline sampleOps sampleParam1Settings sampleParam1Settings =
      [ "alpha", "ccale-param1=7", "cscale=bilinear", "dscale-param1=9", "fbo-format=rgb8",
        "scale=bilinear", "sharpen=0", "tscale=oversample" ] :=
  ⟨by decide,
    (((sendSignals_deband_block sampleOps sampleDebandSettings sampleDebandSettings).2.2
      (by decide)).2).trans (by decide),
    by decide,
    by decide,
    ((sendSignals_deband_block sampleOps sampleParam1Settings sampleParam1Settings).2.1
      (by decide)).2,
    by decide⟩

/-- C9 as amended: when dumb mode is off, the emitted command is the colon-join of the
rendered entries of `params`; these are exactly the executed assignments, and they stand
in strictly ascending order of their keys (the iteration order of `QMap`), whatever the
order of insertion was. -/
theorem sendSignals_tokens_in_key_order (ops : QVariantOps V) (acc defs : SettingMap V)
    (h : ops.toBool (WIDGET_LOOKUP ops acc (ui "videoDumbMode")) = false) :
    sendSignals.voCommandLine ops acc defs =
        ":".intercalate ((sendSignals.params ops acc defs).entries.map renderToken) ∧
      (∀ w, w ∈ (sendSignals.params ops acc defs).entries ↔
        w ∈ sendSignals.writes ops acc defs) ∧
      (sendSignals.params ops acc defs).entries.Pairwise (fun a b => keyLt a.1 b.1) := by
  refine ⟨?_, params_mem_entries_iff ops acc defs, (sendSignals.params ops acc defs).ordered⟩
  unfold sendSignals.voCommandLine sendSignals.cmdline
  rw [h]
  rfl

/-- Witness of C9 as amended. -/
theorem sendSignals_tokens_in_key_order_witness :
    sampleOps.toBool (WIDGET_LOOKUP sampleOps sampleDebandSettings (ui "videoDumbMode")) = false ∧
    sendSignals.voCommandLine sampleOps sampleDebandSettings sampleDebandSettings =
      ":".intercalate
        ((sendSignals.params sampleOps sampleDebandSettings sampleDebandSettings).entries.map
          renderToken) ∧
    (sendSignals.params sampleOps sampleDebandSettings sampleDebandSettings).entries.Pairwise
      (fun a b => keyLt a.1 b.1) :=
  ⟨by decide,
    (sendSignals_tokens_in_key_order sampleOps sampleDebandSettings sampleDebandSettings
      (by decide)).1,
    (sendSignals_tokens_in_key_order sampleOps sampleDebandSettings sampleDebandSettings
      (by decide)).2.2⟩

/-- C9 as stated fails: with dumb mode off, `fbo-format` is inserted first and `scale`
before the deband keys, yet the emitted command starts with the `alpha` token and has the
deband tokens before `fbo-format` and `scale`; it differs from the insertion-order
rendering. -/
theorem sendSignals_not_insertion_order :
    sampleOps.toBool (WIDGET_LOOKUP sampleOps sampleDebandSettings (ui "videoDumbMode")) = false ∧
    (sendSignals.writes sampleOps sampleDebandSettings sampleDebandSettings).map Prod.fst =
      ["fbo-format", "alpha", "sharpen", "scale", "cscale", "tscale", "deband",
        "deband-iterations", "deband-threshold", "deband-range", "deband-grain"] ∧
    ":".intercalate
        ((insertionOrderTokens
          (sendSignals.writes sampleOps sampleDebandSettings sampleDebandSettings)).map
          renderToken) =
      "fbo-format=rgb8:alpha:sharpen=0:scale=bilinear:cscale=bilinear:tscale=oversample:deband:deband-iterations=1:deband-threshold=64:deband-range=16:deband-grain=48" ∧
    sendSignals.voCommandLine sampleOps sampleDebandSettings sampleDebandSettings =
      "alpha:cscale=bilinear:deband:deband-grain=48:deband-iterations=1:deband-range=16:deband-threshold=64:fbo-format=rgb8:scale=bilinear:sharpen=0:tscale=oversample" ∧
    sendSignals.voCommandLine sampleOps sampleDebandSettings sampleDebandSettings ≠
      ":".intercalate
        ((insertionOrderTokens
          (sendSignals.writes sampleOps sampleDebandSettings sampleDebandSettings)).map
          renderToken) := by
  decide

/-- C8 fails on the code: with dumb mode off and the `param1` checkboxes of the chroma and
downscale stages checked, the chroma value is emitted under the key `ccale-param1` and no
emitted token has the key `cscale-param1`; the one token with the key `dscale-param1`
carries the value of `scaleParam1Value` (9) and not that of `dscaleParam1Value` (2). -/
theorem sendSignals_param1_slips :
    sampleOps.toBool (WIDGET_LOOKUP sampleOps sampleParam1Settings (ui "videoDumbMode")) = false ∧
    sampleOps.toBool
      (WIDGET_LOOKUP sampleOps sampleParam1Settings (ui "cscaleParam1Set")) = true ∧
    sampleOps.toBool
      (WIDGET_LOOKUP sampleOps sampleParam1Settings (ui "dscaleParam1Set")) = true ∧
    sendSignals.voCommandLine sampleOps sampleParam1Settings sampleParam1Settings =
      "alpha:ccale-param1=7:cscale=bilinear:dscale-param1=9:fbo-format=rgb8:scale=bilinear:sharpen=0:tscale=oversample" ∧
    (∀ tok ∈ sendSignals.emittedTokens sampleOps sampleParam1Settings sampleParam1Settings,
      tokenHasKey tok "cscale-param1" = false) ∧
    (sendSignals.emittedTokens sampleOps sampleParam1Settings sampleParam1Settings).filter
      (fun tok => tokenHasKey tok "dscale-param1") = ["dscale-param1=9"] ∧
    sampleOps.toString (WIDGET_LOOKUP sampleOps sampleParam1Settings (ui "dscaleParam1Value"))
      = "2" ∧
    sampleOps.toString (WIDGET_LOOKUP sampleOps sampleParam1Settings (ui "scaleParam1Value"))
      = "9" := by
  decide

/-- On every input the chroma `param1` value is assigned under the key `ccale-param1`,
and the key `cscale-param1` is never assigned. -/
theorem sendSignals_cscale_param1_key (ops : QVariantOps V) (acc defs : SettingMap V) :
    (sendSignals.params ops acc defs).find "cscale-param1" = none ∧
    (sendSignals.params ops acc defs).find "ccale-param1" =
      if ops.toBool (WIDGET_LOOKUP ops acc (ui "cscaleParam1Set")) then
        some (ops.toString (WIDGET_LOOKUP ops acc (ui "cscaleParam1Value")))
      else none :=
  ⟨(params_find_statement ops acc defs "cscale-param1").trans rfl,
    (params_find_statement ops acc defs "ccale-param1").trans rfl⟩

/-- On every input the six numeric sub-fields of the downscale stage, when their own
checkbox is true, carry the value of the primary scale stage's control. -/
theorem sendSignals_dscale_value_controls (ops : QVariantOps V) (acc defs : SettingMap V) :
    (sendSignals.params ops acc defs).find "dscale-param1" =
      (if ops.toBool (WIDGET_LOOKUP ops acc (ui "dscaleParam1Set")) then
        some (ops.toString (WIDGET_LOOKUP ops acc (ui "scaleParam1Value"))) else none) ∧
    (sendSignals.params ops acc defs).find "dscale-param2" =
      (if ops.toBool (WIDGET_LOOKUP ops acc (ui "dscaleParam2Set")) then
        some (ops.toString (WIDGET_LOOKUP ops acc (ui "scaleParam2Value"))) else none) ∧
    (sendSignals.params ops acc defs).find "dscale-radius" =
      (if ops.toBool (WIDGET_LOOKUP ops acc (ui "dscaleRadiusSet")) then
        some (ops.toString (WIDGET_LOOKUP ops acc (ui "scaleRadiusValue"))) else none) ∧
    (sendSignals.params ops acc defs).find "dscale-antiring" =
      (if ops.toBool (WIDGET_LOOKUP ops acc (ui "dscaleAntiRingSet")) then
        some (ops.toString (WIDGET_LOOKUP ops acc (ui "scaleAntiRingValue"))) else none) ∧
    (sendSignals.params ops acc defs).find "dscale-blur" =
      (if ops.toBool (WIDGET_LOOKUP ops acc (ui "dscaleBlurSet")) then
        some (ops.toString (WIDGET_LOOKUP ops acc (ui "scaleBlurValue"))) else none) ∧
    (sendSignals.params ops acc defs).find "dscale-wparam" =
      (if ops.toBool (WIDGET_LOOKUP ops acc (ui "dscaleWindowParamSet")) then
        some (ops.toString (WIDGET_LOOKUP ops acc (ui "scaleWindowParamValue"))) else none) :=
  ⟨(params_find_statement ops acc defs "dscale-param1").trans rfl,
    (params_find_statement ops acc defs "dscale-param2").trans rfl,
    (params_find_statement ops acc defs "dscale-radius").trans rfl,
    (params_find_statement ops acc defs "dscale-antiring").trans rfl,
    (params_find_statement ops acc defs "dscale-blur").trans rfl,
    (params_find_statement ops acc defs "dscale-wparam").trans rfl⟩

/-- The sibling stages read their own controls: the `param1` token of the primary and of
the temporal stage carries that stage's own value. -/
theorem sendSignals_scale_tscale_value_controls (ops : QVariantOps V)
    (acc defs : SettingMap V) :
    (sendSignals.params ops acc defs).find "scale-param1" =
      (if ops.toBool (WIDGET_LOOKUP ops acc (ui "scaleParam1Set")) then
        some (ops.toString (WIDGET_LOOKUP ops acc (ui "scaleParam1Value"))) else none) ∧
    (sendSignals.params ops acc defs).find "tscale-param1" =
      (if ops.toBool (WIDGET_LOOKUP ops acc (ui "tscaleParam1Set")) then
        some (ops.toString (WIDGET_LOOKUP ops acc (ui "tscaleParam1Value"))) else none) :=
  ⟨(params_find_statement ops acc defs "scale-param1").trans rfl,
    (params_find_statement ops acc defs "tscale-param1").trans rfl⟩

end AssemblerClaims

/-! ## The name-equals-key invariant -/

section InvariantClaim

variable {V : Type}

/-- C10: the name-equals-key invariant. `generateSettingMap` returns a map, and each of its
entries is stored under the Setting's own name, which is non-empty, is not
`qt_spinbox_lineedit` and is the object name of a control of the dialog's tree whose class
is in the allow-list; `fromVMap` preserves "every entry's name equals its key" for every
payload; hence the accepted map keeps it across `takeSettings`. -/
theorem nameIsKey_invariant (ops : QVariantOps V) :
    (∀ this : QObject V, ∃ m, generateSettingMap this = some m ∧
      ∀ e ∈ m.entries, e.2.name = e.1 ∧ e.1 ≠ "" ∧ e.1 ≠ "qt_spinbox_lineedit" ∧
        ∃ o ∈ this.subobjects, o.objectName = e.1 ∧ o.className ∈ settingClasses) ∧
    (∀ (m : SettingMap V) (payload : QVariantMap V),
      NameIsKey m → NameIsKey (SettingMap.fromVMap ops m payload)) ∧
    (∀ (classOf : Nat → String) (acceptedSettings : SettingMap V) (payload : QVariantMap V),
      NameIsKey acceptedSettings →
        NameIsKey (takeSettings ops classOf acceptedSettings payload).1) := by
  refine ⟨?_, ?_, ?_⟩
  · intro this
    apply generateSettingMap.loop_spec this this.size [this] QMap.empty
    · simp [QObject.sizeList]
    · intro q hq o ho
      rw [List.mem_singleton] at hq
      rw [← hq]; exact ho
    · intro e he
      simp [QMap.empty] at he
  · intro m payload h
    exact foldl_fromVMapStep_nameIsKey ops payload.entries m h
  · intro classOf acc payload h
    exact foldl_fromVMapStep_nameIsKey ops payload.entries acc h


/-- Witness of C10. -/
theorem nameIsKey_invariant_witness :
    (∃ m, generateSettingMap sampleDialog = some m ∧
      ∀ e ∈ m.entries, e.2.name = e.1 ∧ e.1 ≠ "" ∧ e.1 ≠ "qt_spinbox_lineedit" ∧
        ∃ o ∈ sampleDialog.subobjects, o.objectName = e.1 ∧ o.className ∈ settingClasses) ∧
    NameIsKey sampleDebandSettings ∧
    NameIsKey (SettingMap.fromVMap sampleOps sampleDebandSettings
      (samplePayload [("debandGrain", SampleVariant.int 7), ("forged", SampleVariant.int 1)])) ∧
    NameIsKey (takeSettings sampleOps (fun _ => "QSpinBox") sampleDebandSettings
      (samplePayload [("debandGrain", SampleVariant.int 7)])).1 :=
  ⟨(nameIsKey_invariant sampleOps).1 sampleDialog, by decide,
    (nameIsKey_invariant sampleOps).2.1 _ _ (by decide),
    (nameIsKey_invariant sampleOps).2.2 _ _ _ (by decide)⟩

/-- The sample dialog yields the three named controls reachable through widgets and
layouts; the spin box's internal line edit, the unnamed line edit and the check box below
the timer are left out. -/
theorem generateSettingMap_sampleDialog :
    (generateSettingMap sampleDialog).map (fun m => m.entries.map (fun e => (e.1, e.2.value))) =
      some [("debandIterations", SampleVariant.int 4), ("scaleScalar", SampleVariant.int 2),
        ("videoDumbMode", SampleVariant.bool true)] := by
  decide

end InvariantClaim

end MpcQt
